import Mathlib

/-!
# Verification of the Minto-Pyramid reasoning core

A shallow embedding of the reasoning core of the repository
(`src/reasoning/mece_validator.py`, `src/reasoning/domain_detector.py`,
`src/reasoning/mece_generator.py`, `src/reasoning/execution.py`,
`src/reasoning/synthesis.py`, `src/reasoning/critique.py`, `src/server.py`)
together with proofs and refutations of the spec's testable properties.

Python dictionaries are modelled as association lists (insertion ordered,
unique keys by construction), floats as rationals, and the mutable state
stores as explicit state-passing values.
-/

namespace Minto

/-- Python's `str.split()` (no argument): split on runs of whitespace,
dropping empty tokens.  Implemented over the character list. -/
def pySplitAux : List Char → List Char → List String
  | [], acc => if acc.isEmpty then [] else [String.mk acc.reverse]
  | c :: cs, acc =>
    if c.isWhitespace then
      if acc.isEmpty then pySplitAux cs [] else String.mk acc.reverse :: pySplitAux cs []
    else pySplitAux cs (c :: acc)

/-- Python `s.split()`. -/
def pySplit (s : String) : List String := pySplitAux s.toList []

/-- `needle` occurs as a contiguous substring of `hay`
(Python's `needle in hay` on strings), on character lists. -/
def containsSubAux (needle : List Char) : List Char → Bool
  | [] => needle.isEmpty
  | c :: t => needle.isPrefixOf (c :: t) || containsSubAux needle t

/-- Python's substring test `needle in hay`. -/
def strContains (hay needle : String) : Bool :=
  containsSubAux needle.toList hay.toList

/-- Python `s.lower()` (all source strings are ASCII, where this is the
character-wise ASCII lowering). -/
def pyLower (s : String) : String := String.mk (s.toList.map Char.toLower)

end Minto

namespace Minto.MeceValidator

/-! ## `src/reasoning/mece_validator.py` -/

/-- One MECE branch, as produced by `mece_generator.generate_mece_reasons`
(`src/reasoning/mece_generator.py`); the validator only reads `title`. -/
structure Reason where
  id : String
  title : String
  claim : String
  tasks_count : Nat
  category_type : String
deriving DecidableEq, Repr

/-- One entry of the `overlaps` list of `check_mutual_exclusivity`. -/
structure Overlap where
  category_1 : String
  category_2 : String
  overlap : List String
  severity : String
deriving DecidableEq, Repr

/-- The function-word set removed from shared title words
(`check_mutual_exclusivity`, line 99). -/
def overlapStopwords : List String :=
  ["and", "or", "the", "a", "an", "of", "for", "in", "on", "with"]

/-- The distinct significant words shared by two titles:
`set(title1.lower().split()) & set(title2.lower().split())` minus the
stopwords.  CPython's set iteration order is unspecified; we fix the order
of first-title tokens (deduplicated), which leaves the cardinality — the
only thing the source branches on — unchanged. -/
def commonSignificant (title1 title2 : String) : List String :=
  ((pySplit (pyLower title1)).dedup).filter
    (fun w => (pySplit (pyLower title2)).contains w && !(overlapStopwords.contains w))

/-- The overlap record built for one pair of reasons when their titles share
at least two significant words (`check_mutual_exclusivity`, lines 101-107). -/
def overlapEntry (reason1 reason2 : Reason) : Option Overlap :=
  let common := commonSignificant reason1.title reason2.title
  if 2 ≤ common.length then
    some { category_1 := reason1.title
           category_2 := reason2.title
           overlap := common
           severity := if 3 ≤ common.length then "high" else "medium" }
  else none

/-- `check_mutual_exclusivity` (lines 74-109): all ordered pairs `i < j`,
outer index ascending, inner index ascending. -/
def check_mutual_exclusivity : List Reason → List Overlap
  | [] => []
  | r :: rest => rest.filterMap (overlapEntry r) ++ check_mutual_exclusivity rest

/-- The common-word filter of `extract_key_concepts` (line 213). -/
def conceptStopwords : List String :=
  ["the", "and", "for", "that", "with", "from", "this", "have", "what",
   "how", "can", "will", "should"]

/-- Python `word.strip('.,?!')`: drop those characters from both ends. -/
def stripPunct (w : String) : String :=
  let punct : List Char := ['.', ',', '?', '!']
  String.mk (((w.toList.dropWhile (punct.contains ·)).reverse.dropWhile
    (punct.contains ·)).reverse)

/-- `extract_key_concepts` (lines 207-222): words longer than 3 characters,
not in the stopword list, stripped of `.,?!`, deduplicated, first 8.
CPython's `list(set(...))` order is unspecified; we keep last occurrences
(`List.dedup`), one fixed refinement of it. -/
def extract_key_concepts (text : String) (_domain : String) : List String :=
  (((pySplit text).filter
      (fun w => 3 < w.length && !(conceptStopwords.contains (pyLower w)))).map
    stripPunct).dedup.take 8

/-- `get_synonyms` (lines 225-238). -/
def get_synonyms (word : String) : List String :=
  let synonym_map : List (String × List String) :=
    [("optimization", ["optimize", "optimizing", "optimal"]),
     ("design", ["designing", "designed", "designer"]),
     ("constraint", ["constraints", "limitation", "restrictions"]),
     ("performance", ["efficiency", "effectiveness"]),
     ("algorithm", ["algorithms", "algorithmic", "computational"]),
     ("method", ["methods", "methodology", "approach", "technique"]),
     ("problem", ["problems", "issue", "challenge"]),
     ("solution", ["solutions", "solve", "solving"])]
  (synonym_map.lookup (pyLower word)).getD [word]

/-- `check_collective_exhaustiveness` (lines 112-138): concepts of the brief
not covered (literally or via a synonym) by any reason title. -/
def check_collective_exhaustiveness (reasons : List Reason) (brief : String)
    (domain : String) : List String :=
  let key_concepts := extract_key_concepts (pyLower brief) domain
  key_concepts.filter (fun concept =>
    !(reasons.any (fun reason =>
      let title_lower := pyLower reason.title
      strContains title_lower concept ||
        (get_synonyms concept).any (fun syn => strContains title_lower syn))))

/-- `detect_category_type` (lines 178-204). -/
def detect_category_type (title : String) : String :=
  let title_lower := pyLower title
  if ["process", "step", "phase", "stage", "workflow", "procedure"].any
      (fun w => strContains title_lower w) then "process"
  else if ["component", "element", "part", "module", "system", "architecture"].any
      (fun w => strContains title_lower w) then "component"
  else if ["problem", "issue", "challenge", "barrier", "obstacle", "constraint"].any
      (fun w => strContains title_lower w) then "problem"
  else if ["solution", "approach", "method", "strategy", "technique", "mechanism"].any
      (fun w => strContains title_lower w) then "solution"
  else if ["factor", "dimension", "aspect", "consideration", "analysis"].any
      (fun w => strContains title_lower w) then "analysis"
  else "general"

/-- `check_same_kind` (lines 141-175).  Returns `(same_kind, issues)`.
The issue string interpolates Python's set repr, whose order is
unspecified; we use the deduplicated list joined by `, `. -/
def check_same_kind (reasons : List Reason) : Bool × List String :=
  if reasons.length ≤ 1 then (true, [])
  else
    let category_types := reasons.map (fun r => detect_category_type (pyLower r.title))
    let unique_types := category_types.dedup
    if 1 < unique_types.length then
      (false,
       ["Mixed category types detected: " ++ String.intercalate ", " unique_types,
        "All categories should be the same kind (all reasons, or all steps, or all components)"])
    else (true, [])

/-- `get_cognitive_load_message` (lines 241-250). -/
def get_cognitive_load_message (count : Nat) : String :=
  if count == 1 then "Only 1 category - consider if this can be decomposed further"
  else if count ≤ 4 then
    "✓ Good: " ++ toString count ++ " categories (within cognitive limit of 3-4)"
  else if count ≤ 7 then
    "⚠ Warning: " ++ toString count ++ " categories (approaching cognitive limit of 7±2)"
  else
    "✗ Poor: " ++ toString count ++ " categories (exceeds cognitive limit - should be 3-4)"

/-- `generate_mece_recommendations` (lines 253-289). -/
def generate_mece_recommendations (has_overlaps has_gaps cognitive_load_ok
    same_kind : Bool) (overlaps : List Overlap) (gaps : List String)
    (category_count : Nat) (kind_issues : List String) : List String :=
  let recommendations : List String :=
    (if has_overlaps then
      "**Overlaps Detected**: Merge or clarify overlapping categories:" ::
        overlaps.map (fun o =>
          "  - '" ++ o.category_1 ++ "' and '" ++ o.category_2 ++ "' share: "
            ++ String.intercalate ", " o.overlap)
     else []) ++
    (if has_gaps then
      "**Gaps Detected**: Consider adding categories to cover:" ::
        (gaps.take 5).map (fun g => "  - " ++ g)
     else []) ++
    (if !cognitive_load_ok then
      (if 4 < category_count then
        ["**Too Many Categories**: Reduce from " ++ toString category_count
          ++ " to 3-4 by grouping related items"]
       else if category_count == 0 then
        ["**No Categories**: Generate 3-4 MECE categories to structure analysis"]
       else [])
     else []) ++
    (if !same_kind then
      "**Mixed Category Types**: Ensure all categories are same kind:" ::
        kind_issues.map (fun i => "  - " ++ i)
     else [])
  if recommendations.isEmpty then
    ["✓ MECE structure is valid - no issues detected"]
  else recommendations

/-- The validation report returned by `validate_mece_structure`. -/
structure ValidationReport where
  is_mece : Bool
  passed : Bool
  mutually_exclusive : Bool
  has_overlaps : Bool
  overlaps : List Overlap
  collectively_exhaustive : Bool
  has_gaps : Bool
  gaps : List String
  category_count : Nat
  cognitive_load_ok : Bool
  cognitive_load_message : String
  same_kind : Bool
  kind_issues : List String
  recommendations : List String
deriving DecidableEq, Repr

/-- `validate_mece_structure` (lines 9-71).  The Python argument is the plan
dict; only its `reasons`, `brief` and `domain` entries are read (with the
defaults `[]`, `""`, `""`), so we pass those three directly. -/
def validate_mece_structure (reasons : List Reason) (brief : String)
    (domain : String) : ValidationReport :=
  let category_count := reasons.length
  let cognitive_load_ok := decide (1 ≤ category_count) && decide (category_count ≤ 4)
  let overlaps := check_mutual_exclusivity reasons
  let has_overlaps := decide (0 < overlaps.length)
  let gaps := check_collective_exhaustiveness reasons brief domain
  let has_gaps := decide (0 < gaps.length)
  let sk := check_same_kind reasons
  let same_kind := sk.1
  let kind_issues := sk.2
  let is_mece := (!has_overlaps) && (!has_gaps) && cognitive_load_ok && same_kind
  { is_mece := is_mece
    passed := is_mece
    mutually_exclusive := !has_overlaps
    has_overlaps := has_overlaps
    overlaps := overlaps
    collectively_exhaustive := !has_gaps
    has_gaps := has_gaps
    gaps := gaps
    category_count := category_count
    cognitive_load_ok := cognitive_load_ok
    cognitive_load_message := get_cognitive_load_message category_count
    same_kind := same_kind
    kind_issues := kind_issues
    recommendations := generate_mece_recommendations has_overlaps has_gaps
      cognitive_load_ok same_kind overlaps gaps category_count kind_issues }

end Minto.MeceValidator

namespace Minto.DomainDetector

/-! ## `src/reasoning/domain_detector.py` -/

/-- `DomainType` (lines 11-20): primary domain classifications. -/
inductive DomainType where
  | TECHNICAL
  | BUSINESS
  | SCIENTIFIC
  | MEDICAL
  | LEGAL
  | SOCIAL
  | INTERDISCIPLINARY
  | GENERAL
deriving DecidableEq, Repr

open DomainType

/-- `DOMAIN_KEYWORDS` (lines 48-176): domain → category → keyword list, in
source (dict insertion) order. -/
def DOMAIN_KEYWORDS : List (DomainType × List (String × List String)) :=
  [(TECHNICAL,
    [("core",
      ["algorithm", "optimization", "computational", "simulation",
       "architecture", "implementation", "system", "design",
       "performance", "efficiency", "throughput", "latency",
       "scalability", "distributed", "parallel", "concurrent"]),
     ("hardware",
      ["fabrication", "semiconductor", "photonic", "optical",
       "electronic", "device", "circuit", "transistor",
       "wafer", "lithography", "etching", "deposition"]),
     ("software",
      ["code", "programming", "software", "framework",
       "library", "api", "protocol", "interface",
       "data structure", "compiler", "runtime"]),
     ("ml_ai",
      ["neural network", "deep learning", "machine learning",
       "training", "inference", "model", "gradient",
       "backpropagation", "transformer", "embedding"]),
     ("optimization",
      ["topology optimization", "inverse design", "constraint",
       "objective function", "convergence", "gradient descent",
       "binarization", "penalty method", "adjoint method"]),
     ("photonics",
      ["photonic", "optical", "waveguide", "resonator",
       "silicon photonics", "inverse design", "mode",
       "electromagnetic", "maxwell", "fdtd"]),
     ("quantum",
      ["quantum", "qubit", "entanglement", "superposition",
       "quantum computing", "quantum error correction",
       "topological", "hamiltonian"])]),
   (SCIENTIFIC,
    [("physics",
      ["electromagnetic", "quantum mechanics", "thermodynamics",
       "optics", "mechanics", "relativity", "field theory"]),
     ("chemistry",
      ["molecular", "chemical", "reaction", "synthesis",
       "catalyst", "polymer", "spectroscopy"]),
     ("biology",
      ["biological", "genetic", "protein", "cell",
       "organism", "evolution", "ecosystem"]),
     ("materials",
      ["material science", "crystallography", "metallurgy",
       "composite", "nanomaterial", "thin film"])]),
   (BUSINESS,
    [("financial",
      ["revenue", "profit", "margin", "ebitda", "roi",
       "valuation", "investment", "funding", "cash flow",
       "dividend", "shareholder", "equity", "debt"]),
     ("operational",
      ["operational", "efficiency", "productivity", "supply chain",
       "logistics", "inventory", "manufacturing", "quality"]),
     ("strategic",
      ["strategy", "competitive", "positioning", "market share",
       "differentiation", "competitive advantage", "moat"]),
     ("marketing",
      ["customer", "market", "brand", "acquisition", "retention",
       "churn", "conversion", "engagement", "persona"]),
     ("growth",
      ["growth", "expansion", "scaling", "penetration",
       "market entry", "addressable market", "tam sam som"])]),
   (MEDICAL,
    [("clinical",
      ["patient", "diagnosis", "treatment", "therapy",
       "clinical", "prognosis", "symptom", "syndrome"]),
     ("pharmaceutical",
      ["drug", "pharmaceutical", "medication", "dosage",
       "pharmacology", "compound", "trial", "efficacy"]),
     ("surgical",
      ["surgery", "surgical", "procedure", "operation",
       "invasive", "laparoscopic", "endoscopic"]),
     ("diagnostic",
      ["diagnostic", "imaging", "radiology", "pathology",
       "biopsy", "biomarker", "screening"])]),
   (LEGAL,
    [("core",
      ["law", "legal", "regulation", "statute", "legislation",
       "compliance", "contract", "liability", "jurisdiction",
       "precedent", "judicial", "court", "litigation"]),
     ("ip",
      ["patent", "trademark", "copyright", "intellectual property",
       "infringement", "licensing", "trade secret"])]),
   (SOCIAL,
    [("policy",
      ["policy", "governance", "regulation", "public",
       "government", "legislative", "political"]),
     ("societal",
      ["social", "cultural", "community", "societal",
       "demographic", "population", "inequality", "equity"]),
     ("environmental",
      ["environmental", "sustainability", "climate",
       "ecosystem", "conservation", "renewable"])])]

/-- One domain score: the number of table keywords occurring in the
lowercased brief (`detect_domain`, lines 236-247). -/
def domainScore (brief_lower : String) (cats : List (String × List String)) : Nat :=
  (cats.map (fun c => (c.2.filter (fun kw => strContains brief_lower kw)).length)).sum

/-- The scored domain list in table order. -/
def domainScores (brief : String) : List (DomainType × Nat) :=
  let brief_lower := pyLower brief
  DOMAIN_KEYWORDS.map (fun p => (p.1, domainScore brief_lower p.2))

/-- `sorted(domain_scores.items(), key=..., reverse=True)[0]`: Python's sort
is stable, so the head of the descending sort is the first entry attaining
the maximal score. -/
def selectTop : List (DomainType × Nat) → DomainType × Nat
  | [] => (GENERAL, 0)
  | x :: xs => xs.foldl (fun best y => if best.2 < y.2 then y else best) x

/-- The `primary_domain` of `detect_domain` (lines 216-278): highest-scoring
domain, or `GENERAL` when the top score is zero.  The rest of the returned
context (subdomain, lenses, keyword lists, confidence) is not consulted by
the claims about this function. -/
def detect_domain_primary (brief : String) : DomainType :=
  let top := selectTop (domainScores brief)
  if 0 < top.2 then top.1 else GENERAL

/-- The `confidence` entry of the detection context:
`min(max_score / 10.0, 1.0)`. -/
def detect_domain_confidence (brief : String) : ℚ :=
  min ((selectTop (domainScores brief)).2 / 10) 1

/-- Every keyword of every domain and category, flattened. -/
def allDomainKeywords : List String :=
  DOMAIN_KEYWORDS.flatMap (fun p => p.2.flatMap Prod.snd)

end Minto.DomainDetector

namespace Minto.MeceGen

/-! ## `src/reasoning/mece_generator.py`

This module addresses `DomainType` and `AnalysisLens` members
(`TECHNICAL_ENGINEERING`, `NATURAL_SCIENCES`, ..., `AnalysisLens.PROCESS`,
`AnalysisLens.CAUSAL`) that belong to a different revision of the enums
than the ones defined in `src/reasoning/domain_detector.py`; we embed the
enums exactly as this module uses them. -/

/-- The domain enumeration as referenced by `MECE_TEMPLATES` and
`get_search_strategy` in `src/reasoning/mece_generator.py`. -/
inductive DomainType where
  | TECHNICAL_ENGINEERING
  | NATURAL_SCIENCES
  | MEDICAL_HEALTH
  | BUSINESS_ECONOMICS
  | MATHEMATICS
  | SOCIAL_POLICY
  | LAW_GOVERNANCE
  | ARTS_HUMANITIES
  | INTERDISCIPLINARY
  | GENERAL
deriving DecidableEq, Repr

/-- The analysis-lens enumeration as referenced by
`LENS_BASED_TEMPLATES` in `src/reasoning/mece_generator.py`. -/
inductive AnalysisLens where
  | SYSTEM
  | PROCESS
  | STAKEHOLDER
  | TEMPORAL
  | SCALE
  | CAUSAL
  | DISCIPLINARY
deriving DecidableEq, Repr

open DomainType AnalysisLens

/-- `MECE_TEMPLATES` (lines 11-161): domain → subdomain → category titles. -/
def MECE_TEMPLATES : List (DomainType × List (String × List String)) :=
  [(TECHNICAL_ENGINEERING,
    [("optimization",
      ["Problem Formulation & Constraints",
       "Solution Methods & Convergence",
       "Implementation & Validation"]),
     ("photonics",
      ["Device Design & Geometry",
       "Fabrication Constraints & Foundry Rules",
       "Performance Optimization & Validation"]),
     ("system_design",
      ["System Architecture & Components",
       "Scalability & Performance",
       "Reliability & Operations"]),
     ("algorithm",
      ["Algorithm Design & Complexity",
       "Implementation Techniques",
       "Performance & Validation"]),
     ("ai_ml",
      ["Model Architecture & Design",
       "Training & Optimization",
       "Deployment & Performance"]),
     ("default",
      ["Technical Requirements & Constraints",
       "Solution Approach & Methods",
       "Implementation & Validation"])]),
   (NATURAL_SCIENCES,
    [("physics",
      ["Theoretical Framework", "Experimental Methods", "Analysis & Implications"]),
     ("chemistry",
      ["Chemical Mechanisms", "Experimental Design", "Results & Applications"]),
     ("biology",
      ["Biological Systems", "Research Methods", "Findings & Implications"]),
     ("default",
      ["Theoretical Foundation", "Experimental Approach", "Results & Implications"])]),
   (MEDICAL_HEALTH,
    [("clinical",
      ["Clinical Assessment", "Diagnostic & Treatment Options", "Outcomes & Prognosis"]),
     ("pharmaceutical",
      ["Drug Mechanism & Properties", "Clinical Efficacy", "Safety & Administration"]),
     ("default",
      ["Clinical Presentation", "Treatment Approaches", "Expected Outcomes"])]),
   (BUSINESS_ECONOMICS,
    [("strategy",
      ["Market Position & Competition", "Strategic Capabilities", "Growth Opportunities"]),
     ("operations",
      ["Process Efficiency", "Resource Optimization", "Quality & Performance"]),
     ("finance",
      ["Revenue Drivers", "Cost Structure", "Financial Performance"]),
     ("default",
      ["Market Position", "Operational Factors", "Financial Implications"])]),
   (MATHEMATICS,
    [("default",
      ["Mathematical Framework", "Theoretical Analysis", "Applications & Examples"])]),
   (SOCIAL_POLICY,
    [("policy",
      ["Policy Context & Stakeholders", "Implementation Mechanisms", "Impact & Outcomes"]),
     ("default",
      ["Social Context", "Policy Approaches", "Expected Impact"])]),
   (LAW_GOVERNANCE,
    [("default",
      ["Legal Framework", "Compliance Requirements", "Implications & Risks"])]),
   (ARTS_HUMANITIES,
    [("default",
      ["Historical Context", "Critical Analysis", "Cultural Significance"])]),
   (INTERDISCIPLINARY,
    [("default",
      ["Disciplinary Foundations", "Integration & Synergies", "Emergent Capabilities"])]),
   (GENERAL,
    [("default",
      ["Current State & Context", "Key Challenges", "Potential Solutions"])])]

/-- `LENS_BASED_TEMPLATES` (lines 165-201). -/
def LENS_BASED_TEMPLATES : List (AnalysisLens × List String) :=
  [(SYSTEM, ["System Components", "Interactions & Interfaces", "Performance & Optimization"]),
   (PROCESS, ["Process Steps", "Resource Requirements", "Quality & Outcomes"]),
   (STAKEHOLDER, ["Stakeholder Needs", "Impact & Benefits", "Implementation Considerations"]),
   (TEMPORAL, ["Historical Context", "Current State", "Future Trajectory"]),
   (SCALE, ["Individual Level", "System Level", "Ecosystem Level"]),
   (CAUSAL, ["Root Causes", "Contributing Factors", "Effects & Outcomes"]),
   (DISCIPLINARY, ["Theoretical Foundation", "Methodological Approach", "Practical Applications"])]

/-- `select_mece_template` (lines 257-292): domain+subdomain template, else
domain default, else the domain's first template, else (domain not in the
table) lens-based template, else the global fallback. -/
def select_mece_template (domain : DomainType) (subdomain : Option String)
    (lenses : List AnalysisLens) : List String :=
  match MECE_TEMPLATES.lookup domain with
  | some domain_templates =>
    match subdomain.bind (fun s => domain_templates.lookup s) with
    | some t => t
    | none =>
      match domain_templates.lookup "default" with
      | some d => d
      | none => ((domain_templates.map Prod.snd).headD
          ["Current State & Context", "Key Challenges", "Potential Solutions"])
  | none =>
    match lenses.head? with
    | some l =>
      match LENS_BASED_TEMPLATES.lookup l with
      | some t => t
      | none => ["Current State & Context", "Key Challenges", "Potential Solutions"]
    | none => ["Current State & Context", "Key Challenges", "Potential Solutions"]

/-- The category list produced by `generate_mece_reasons` (lines 234-241):
the selected template, truncated to 4 entries when longer (lists shorter
than 3 are only warned about, not padded). -/
def generate_categories (domain : DomainType) (subdomain : Option String)
    (lenses : List AnalysisLens) : List String :=
  let categories := select_mece_template domain subdomain lenses
  if 4 < categories.length then categories.take 4 else categories

/-- `detect_category_type` of the generator (lines 295-319) — note this is
a different table from the validator's function of the same name. -/
def detect_category_type (title : String) : String :=
  let title_lower := pyLower title
  if ["component", "part", "element", "module"].any
      (fun w => strContains title_lower w) then "component"
  else if ["step", "phase", "stage", "process"].any
      (fun w => strContains title_lower w) then "process"
  else if ["factor", "driver", "contributor", "cause"].any
      (fun w => strContains title_lower w) then "factor"
  else if ["dimension", "aspect", "perspective", "view"].any
      (fun w => strContains title_lower w) then "dimension"
  else if ["stakeholder", "actor", "participant", "group"].any
      (fun w => strContains title_lower w) then "stakeholder"
  else "general"

/-- `generate_mece_reasons` (lines 204-254), given an already-detected
domain context: wraps each selected category title in a reason record. -/
def generate_mece_reasons (domain : DomainType) (subdomain : Option String)
    (lenses : List AnalysisLens) : List MeceValidator.Reason :=
  (generate_categories domain subdomain lenses).enum.map (fun p =>
    { id := "reason_" ++ toString (p.1 + 1)
      title := p.2
      claim := "Analysis of " ++ pyLower p.2 ++ " reveals key insights"
      tasks_count := 2
      category_type := detect_category_type p.2 })

/-- `get_search_strategy` (lines 322-340). -/
def get_search_strategy (domain : DomainType) : String :=
  match domain with
  | TECHNICAL_ENGINEERING => "academic"
  | NATURAL_SCIENCES => "academic"
  | MEDICAL_HEALTH => "medical"
  | BUSINESS_ECONOMICS => "business"
  | MATHEMATICS => "academic"
  | SOCIAL_POLICY => "general"
  | LAW_GOVERNANCE => "legal"
  | ARTS_HUMANITIES => "academic"
  | INTERDISCIPLINARY => "academic"
  | GENERAL => "general"

end Minto.MeceGen

namespace Minto.Reasoning

/-! ## Shared data model of the `src/reasoning` package

The plan dict built by `plan_pyramid_with_thinking`
(`src/reasoning/plan.py`, lines 68-104) and mutated in place by the
evidence, synthesis and critique stages.  Fields that are pure reasoning
prose (`scqa_reasoning_chain`, `mece_reasoning_chain`, `created_at`,
`next_step`, `constraints`, `problem_type`) are not read by any claimed
property and are omitted; every field read by an embedded operation is
present. -/

/-- One mock evidence item returned by the stubbed search
(`src/reasoning/execution.py`, lines 11-24). -/
structure EvidenceItem where
  content : String
  url : String
  confidence : ℚ
deriving DecidableEq, Repr

/-- One evidence task built by `create_evidence_tasks`
(`src/reasoning/plan.py`, lines 225-253).  `search_type` is always set
there, so the `task.get("search_type", search_strategy)` fallback of the
executor never fires; we model the key as present. -/
structure EvidenceTask where
  reason_id : String
  query : String
  search_type : String
  purpose : String
deriving DecidableEq, Repr

/-- The SCQA introduction (`reason_through_scqa`, plan.py lines 150-155). -/
structure SCQA where
  situation : String
  complication : String
  question : String
  answer : String
deriving DecidableEq, Repr

/-- One aspect record of the critique (`src/reasoning/critique.py`). -/
structure CritiqueAspect where
  aspect : String
  score : ℚ
  findings : List String
  passed : Bool
deriving DecidableEq, Repr

/-- The aggregate critique result (`critique_pyramid_quality`). -/
structure CritiqueReport where
  run_id : String
  status : String
  overall_score : ℚ
  passed : Bool
  critiques : List CritiqueAspect
  summary : String
deriving DecidableEq, Repr

/-- The per-run analysis record stored in `REASONING_STATE`. -/
structure Plan where
  run_id : String
  status : String
  domain : String
  subdomain : Option String
  confidence : ℚ
  scqa : SCQA
  governing_thought : String
  reasons : List MeceValidator.Reason
  logical_order_type : String
  evidence_tasks : List EvidenceTask
  search_strategy : String
  audience : String
  brief : String
  evidence_collected : List (String × List EvidenceItem)
  critique : Option CritiqueReport
deriving DecidableEq, Repr

/-- `REASONING_STATE` (`src/reasoning/plan.py`, line 13): the process-wide
run_id → plan dictionary, as an insertion-ordered association list. -/
def ReasoningState : Type := List (String × Plan)

/-- In-place mutation of the plan stored under `run_id`. -/
def updateState (state : List (String × Plan)) (run_id : String) (p : Plan) :
    List (String × Plan) :=
  state.map (fun e => if e.1 == run_id then (e.1, p) else e)

end Minto.Reasoning

namespace Minto

/-- `evidence_collected[rid] = evidence_collected.get(rid, []) + items`:
dict-style upsert that appends to the first entry with the key, or appends
a fresh entry at the end. -/
def addToGroup {α : Type} : List (String × List α) → String → List α → List (String × List α)
  | [], rid, items => [(rid, items)]
  | e :: g, rid, items =>
    if e.1 == rid then (e.1, e.2 ++ items) :: g else e :: addToGroup g rid items

/-- `d.get(rid, [])` on an evidence dictionary. -/
def lookupGroup {α : Type} (g : List (String × List α)) (rid : String) : List α :=
  (g.lookup rid).getD []

/-- `sum(len(e) for e in d.values())`. -/
def totalEvidence {α : Type} (g : List (String × List α)) : Nat :=
  (g.map (fun e => e.2.length)).sum

end Minto

namespace Minto.Execution

open Minto.Reasoning

/-! ## `src/reasoning/execution.py` -/

/-- `search_web_evidence` (lines 11-24): the stubbed search collaborator —
exactly one mock item per query. -/
def search_web_evidence (query : String) (_max_results : Nat) : List EvidenceItem :=
  [{ content := "Mock evidence for query: " ++ query,
     url := "https://example.com/"
       ++ String.mk (query.toList.map (fun c => if c = ' ' then '-' else c)),
     confidence := 0.95 }]

/-- The `enhanced_queries` of `search_evidence_domain_aware` (lines 34-62). -/
def enhancedQueries (query search_type : String) : List String :=
  if search_type == "academic" then
    [query ++ " site:arxiv.org OR site:ieee.org OR site:sciencedirect.com",
     query ++ " research paper",
     query ++ " journal article"]
  else if search_type == "business" then
    [query ++ " market analysis",
     query ++ " industry report",
     query]
  else if search_type == "medical" then
    [query ++ " site:pubmed.ncbi.nlm.nih.gov OR site:nejm.org",
     query ++ " clinical study",
     query]
  else [query]

/-- The query loop of `search_evidence_domain_aware` (lines 65-70):
accumulate stub results, breaking once `max_results` are collected. -/
def gatherResults (max_results : Nat) : List String → List EvidenceItem → List EvidenceItem
  | [], acc => acc
  | q :: qs, acc =>
    let acc2 := acc ++ search_web_evidence q 3
    if max_results ≤ acc2.length then acc2 else gatherResults max_results qs acc2

/-- `search_evidence_domain_aware` (lines 27-72): route the query through
up to two enhanced queries and cap the result list. -/
def search_evidence_domain_aware (query search_type _domain : String)
    (max_results : Nat) : List EvidenceItem :=
  (gatherResults max_results ((enhancedQueries query search_type).take 2) []).take max_results

/-- One row of the `evidence_collected` summary of the response
(lines 119-130). -/
structure EvidenceSummary where
  reason_id : String
  reason_title : String
  evidence_count : Nat
  avg_confidence : ℚ
deriving DecidableEq, Repr

/-- The response dict of `run_plan_stage_async`: either the error payload
or the success payload (lines 82-83 and 136-143). -/
inductive ExecResult where
  | error (msg : String)
  | ok (run_id stage status : String) (evidence_collected : List EvidenceSummary)
      (total_evidence : Nat) (next_step : String)
deriving DecidableEq, Repr

/-- The reported `total_evidence` of a successful response. -/
def ExecResult.total? : ExecResult → Option Nat
  | .error _ => none
  | .ok _ _ _ _ t _ => some t

/-- Whether the response is the `error` payload. -/
def ExecResult.isError : ExecResult → Bool
  | .error _ => true
  | .ok _ _ _ _ _ _ => false

/-- The per-reason grouping loop (lines 112-116), over the zipped
task/result pairs in task order (the `asyncio.gather` preserves the
positional correspondence). -/
def collectEvidence (tasks : List EvidenceTask) (results : List (List EvidenceItem)) :
    List (String × List EvidenceItem) :=
  (tasks.zip results).foldl (fun acc p => addToGroup acc p.1.reason_id p.2) []

/-- `run_plan_stage_async` (lines 75-143), state passed explicitly; note
line 133 REPLACES `plan["evidence_collected"]` with the freshly gathered
dictionary. -/
def run_plan_stage (state : List (String × Plan)) (run_id : String) (stage : String) :
    ExecResult × List (String × Plan) :=
  match state.lookup run_id with
  | none => (.error "Run not found", state)
  | some plan =>
    let tasks := if stage == "all" then plan.evidence_tasks
      else plan.evidence_tasks.filter (fun t => t.reason_id == stage)
    let results := tasks.map (fun t =>
      search_evidence_domain_aware t.query t.search_type plan.domain 5)
    let evidence_collected := collectEvidence tasks results
    let evidence_summary := plan.reasons.map (fun r =>
      let evidence := lookupGroup evidence_collected r.id
      { reason_id := r.id
        reason_title := r.title
        evidence_count := evidence.length
        avg_confidence := (evidence.map (fun e => e.confidence)).sum
          / (max evidence.length 1 : Nat) : EvidenceSummary })
    let plan2 := { plan with
      evidence_collected := evidence_collected, status := "evidence_collected" }
    (.ok run_id stage "evidence_collected" evidence_summary
      (totalEvidence evidence_collected) "synthesize_pyramid",
     updateState state run_id plan2)

end Minto.Execution

namespace Minto.Synthesis

open Minto.Reasoning

/-! ## `src/reasoning/synthesis.py`

`build_markdown_deliverable` and `build_json_deliverable` are pure string
templates over the same plan fields (spec section 4.6: "Purely a
formatting function; no decision logic"); no claimed property reads the
rendered text, so only the result/state behaviour is embedded. -/

/-- The response dict of `synthesize_deliverable`: the error payload
(lines 31-33) or the success payload (lines 69-76). -/
inductive SynthResult where
  | error (msg : String)
  | ok (run_id status format next_step : String)
deriving DecidableEq, Repr

/-- Whether the response is the `error` payload. -/
def SynthResult.isError : SynthResult → Bool
  | .error _ => true
  | .ok _ _ _ _ => false

/-- `synthesize_deliverable` (lines 10-76), state passed explicitly: looks
up the run, renders the deliverable, and sets `status = "synthesized"`
unconditionally (line 60). -/
def synthesize_deliverable (state : List (String × Plan)) (run_id : String)
    (format : String) : SynthResult × List (String × Plan) :=
  match state.lookup run_id with
  | none => (.error "Run not found", state)
  | some plan =>
    let plan2 := { plan with status := "synthesized" }
    (.ok run_id "synthesized" format "critique_pyramid", updateState state run_id plan2)

end Minto.Synthesis

namespace Minto.Critique

open Minto.Reasoning

/-! ## `src/reasoning/critique.py`

The file in the repository is truncated: it ends mid-statement inside
`critique_evidence` (line 285), and the bodies of `critique_evidence`,
`critique_cognitive_load` and `generate_critique_summary` are missing.
Those three are modelled from the spec below; everything else is embedded
from the source. -/

/-- Python `"word".title()` for the single-word SCQA element names. -/
def titleCase (w : String) : String :=
  match w.toList with
  | [] => ""
  | c :: cs => String.mk (c.toUpper :: cs)

/-- `critique_scqa` (lines 92-120): one error quarter per missing SCQA
element, a tenth per present-but-short (< 20 characters) element. -/
def critique_scqa (plan : Plan) : CritiqueAspect :=
  let required : List (String × String) :=
    [("situation", plan.scqa.situation), ("complication", plan.scqa.complication),
     ("question", plan.scqa.question), ("answer", plan.scqa.answer)]
  let missing := (required.filter (fun r => r.2 == "")).map Prod.fst
  let brief_short := required.filter (fun r => r.2 != "" && r.2.length < 20)
  let score : ℚ := 1 - (0.25 : ℚ) * missing.length - (0.1 : ℚ) * brief_short.length
  { aspect := "SCQA Completeness"
    score := max score 0
    findings := (if missing.isEmpty then ["✓ All SCQA elements present"]
        else ["Missing SCQA elements: " ++ String.intercalate ", " missing])
      ++ brief_short.map (fun r => titleCase r.1 ++ " is too brief (should be substantive)")
    passed := decide ((0.75 : ℚ) ≤ score) }

/-- `critique_governing_thought` (lines 123-151). -/
def critique_governing_thought (plan : Plan) : CritiqueAspect :=
  let gt := plan.governing_thought
  let reasons := plan.reasons
  let base : ℚ := if gt == "" then 0 else if gt.length < 30 then 1 - 0.3 else 1
  let score : ℚ := base - (if reasons.isEmpty then 0.5 else 0)
  { aspect := "Governing Thought Summary"
    score := max score 0
    findings := (if gt == "" then ["No governing thought defined"]
        else if gt.length < 30 then ["Governing thought is too brief"]
        else ["✓ Governing thought is substantive"])
      ++ (if reasons.isEmpty then ["No reasons defined to summarize"]
        else ["✓ " ++ toString reasons.length ++ " reasons present to support governing thought"])
    passed := decide ((0.75 : ℚ) ≤ score) }

/-- `critique_mece` (lines 154-184); the `details` sub-report is the full
validation record, available as `validate_mece_structure` itself. -/
def critique_mece (plan : Plan) : CritiqueAspect :=
  let v := MeceValidator.validate_mece_structure plan.reasons plan.brief plan.domain
  { aspect := "MECE Compliance"
    score := if v.is_mece then 1 else 0.5
    findings := (if v.is_mece then ["✓ MECE structure valid"] else [])
      ++ (if !v.mutually_exclusive then
          ("⚠ Overlaps detected: " ++ toString v.overlaps.length ++ " pairs")
            :: (v.overlaps.take 3).map (fun o =>
              "  - " ++ o.category_1 ++ " ↔ " ++ o.category_2)
        else [])
      ++ (if !v.collectively_exhaustive then
          ("⚠ Gaps detected: " ++ toString v.gaps.length ++ " missing concepts")
            :: (v.gaps.take 3).map (fun g => "  - " ++ g)
        else [])
      ++ (if !v.same_kind then
          "⚠ Categories are not the same kind" :: v.kind_issues.map (fun i => "  - " ++ i)
        else [])
    passed := v.is_mece }

/-- `critique_vertical_flow` (lines 187-223). -/
def critique_vertical_flow (plan : Plan) : CritiqueAspect :=
  let qa_gap : ℚ := if plan.scqa.question != "" && plan.governing_thought != "" then 0 else 0.3
  let ar_gap : ℚ := if plan.governing_thought != "" && !plan.reasons.isEmpty then 0 else 0.3
  let ev_gap : ℚ :=
    if !plan.reasons.isEmpty && !plan.evidence_collected.isEmpty then 0
    else if !plan.reasons.isEmpty && plan.evidence_collected.isEmpty then 0.2
    else 0
  let score : ℚ := 1 - qa_gap - ar_gap - ev_gap
  { aspect := "Vertical Q&A Flow"
    score := max score 0
    findings := [if qa_gap == 0 then "✓ Question → Answer flow established"
        else "⚠ Question → Answer flow incomplete",
      if ar_gap == 0 then "✓ Answer supported by " ++ toString plan.reasons.length ++ " reasons"
        else "⚠ Answer → Reasons flow incomplete"]
      ++ (if !plan.reasons.isEmpty && !plan.evidence_collected.isEmpty then
          ["✓ Reasons supported by evidence"]
        else if !plan.reasons.isEmpty && plan.evidence_collected.isEmpty then
          ["⚠ Evidence not yet collected for reasons"]
        else [])
    passed := decide ((0.75 : ℚ) ≤ score) }

/-- `critique_horizontal_logic` (lines 226-247). -/
def critique_horizontal_logic (plan : Plan) : CritiqueAspect :=
  if plan.reasons.length < 2 then
    { aspect := "Horizontal Logic"
      score := 0.8
      findings := ["Cannot assess horizontal logic with < 2 reasons"]
      passed := decide ((0.75 : ℚ) ≤ (0.8 : ℚ)) }
  else
    { aspect := "Horizontal Logic"
      score := 1
      findings := ["✓ " ++ toString plan.reasons.length ++ " reasons form logical grouping",
        "Note: Deep horizontal logic validation requires semantic analysis"]
      passed := decide ((0.75 : ℚ) ≤ (1 : ℚ)) }

/-- `critique_logical_ordering` (lines 250-272). -/
def critique_logical_ordering (plan : Plan) : CritiqueAspect :=
  let logical_order := plan.logical_order_type
  let score : ℚ := if logical_order == "unknown" then 1 - 0.3 else 1
  { aspect := "Logical Ordering"
    score := max score 0
    findings := (if logical_order == "unknown" then ["⚠ Logical order not specified"]
        else ["✓ Logical order: " ++ logical_order])
      ++ (if 2 ≤ plan.reasons.length then
          ["✓ " ++ toString plan.reasons.length ++ " reasons ordered by " ++ logical_order]
        else [])
    passed := decide ((0.75 : ℚ) ≤ score) }

/-- Modelled from the spec: the body of `critique_evidence` is cut off in
the truncated `src/reasoning/critique.py` (the file ends mid-statement at
line 285).  Spec section 4.7: evidence sufficiency is the evidence count
relative to a target of 2 per reason, weighted by mean confidence; spec
section 8 requires every aspect score clamped to [0,1]. -/
def critique_evidence (plan : Plan) : CritiqueAspect :=
  let evidence := plan.evidence_collected
  let total := totalEvidence evidence
  let confidences := evidence.flatMap (fun e => e.2.map (fun i => i.confidence))
  let avg_confidence : ℚ := confidences.sum / (max total 1 : Nat)
  let target : Nat := 2 * max plan.reasons.length 1
  let score : ℚ := max 0 (min (((total : ℚ) / (target : ℚ)) * avg_confidence) 1)
  { aspect := "Evidence Sufficiency"
    score := score
    findings := ["Total evidence items: " ++ toString total]
    passed := decide ((0.75 : ℚ) ≤ score) }

/-- Modelled from the spec: the body of `critique_cognitive_load` is
missing from the truncated `src/reasoning/critique.py`.  Spec sections 4.3
and the source's own check 8 docstring: pass iff the category count is in
[1,4]; scored 1.0 on pass and 0.5 on failure, the same scoring pattern the
in-source `critique_mece` uses for a boolean check. -/
def critique_cognitive_load (plan : Plan) : CritiqueAspect :=
  let count := plan.reasons.length
  let ok := decide (1 ≤ count) && decide (count ≤ 4)
  { aspect := "Cognitive Load"
    score := if ok then 1 else 0.5
    findings := [MeceValidator.get_cognitive_load_message count]
    passed := ok }

/-- Modelled from the spec: `generate_critique_summary` is missing from the
truncated source; it renders presentation prose no claimed property
reads. -/
def generate_critique_summary (_critiques : List CritiqueAspect) (overall : ℚ)
    (passed : Bool) : String :=
  "Quality Score: " ++ toString overall ++ " ("
    ++ (if passed then "PASSED" else "NEEDS REVISION") ++ ")"

/-- The response of `critique_pyramid_quality`: the error payload (lines
30-31) or the quality report (lines 74-81). -/
inductive CritiqueResult where
  | error (msg : String)
  | ok (report : CritiqueReport)
deriving DecidableEq, Repr

/-- Whether the response is the `error` payload. -/
def CritiqueResult.isError : CritiqueResult → Bool
  | .error _ => true
  | .ok _ => false

/-- The 8 aspect critiques, in source order (lines 36-67). -/
def critique_list (plan : Plan) : List CritiqueAspect :=
  [critique_scqa plan, critique_governing_thought plan,
   critique_mece plan, critique_vertical_flow plan, critique_horizontal_logic plan,
   critique_logical_ordering plan, critique_evidence plan, critique_cognitive_load plan]

/-- The quality report assembled by `critique_pyramid_quality`
(lines 69-81): simple mean of the aspect scores; pass iff the mean is at
least 0.75 and every aspect is at least 0.6. -/
def critique_report (run_id : String) (plan : Plan) : CritiqueReport :=
  let critiques := critique_list plan
  let scores := critiques.map (fun c => c.score)
  let overall_score := scores.sum / (scores.length : ℚ)
  let passed := decide ((0.75 : ℚ) ≤ overall_score)
    && critiques.all (fun c => decide ((0.6 : ℚ) ≤ c.score))
  { run_id := run_id
    status := "critiqued"
    overall_score := overall_score
    passed := passed
    critiques := critiques
    summary := generate_critique_summary critiques overall_score passed }

/-- `critique_pyramid_quality` (lines 12-89), state passed explicitly:
build the report, store it in the plan and set `status = "critiqued"`. -/
def critique_pyramid_quality (state : List (String × Plan)) (run_id : String) :
    CritiqueResult × List (String × Plan) :=
  match state.lookup run_id with
  | none => (.error "Run not found", state)
  | some plan =>
    let report := critique_report run_id plan
    let plan2 := { plan with critique := some report, status := "critiqued" }
    (.ok report, updateState state run_id plan2)

end Minto.Critique

namespace Minto

/-- Dict-style update of the entry stored under `k`. -/
def updateAssoc {α : Type} (l : List (String × α)) (k : String) (v : α) :
    List (String × α) :=
  l.map (fun e => if e.1 == k then (e.1, v) else e)

end Minto

namespace Minto.Server

/-! ## `src/server.py` (the orchestrator revision)

`tavily_search` performs a network call with a deterministic mock
fallback; the pipeline is embedded parameterised over that pluggable
search collaborator (`search`), exactly as the spec treats it ("a
pluggable search collaborator", section 4.5).  Timestamps
(`datetime.now()`), the `memory` scratch dict and the rendered markdown of
`synthesize_pyramid_deliverable` (a pure string template) are not read by
any claimed property and are omitted from the embedded records. -/

/-- One raw search result as produced by `tavily_search` (lines 185-210). -/
structure SearchResult where
  title : String
  url : String
  content : String
  score : ℚ
  published_date : String
deriving DecidableEq, Repr

/-- `EvidenceTask` (lines 49-57); the `params` dict holds `query` and
`max_results`, modelled as fields. -/
structure EvidenceTask where
  id : String
  kind : String
  target : String
  query : String
  max_results : Nat
  status : String
deriving DecidableEq, Repr

/-- `EvidenceItem` (lines 59-67); the provenance dict's `query` and `rank`
are modelled as fields. -/
structure EvidenceItem where
  content : String
  source : String
  url : String
  confidence : ℚ
  query : String
  rank : Nat
  citation_id : Nat
deriving DecidableEq, Repr

/-- `Reason` (lines 69-76). -/
structure Reason where
  id : String
  title : String
  claim : String
  tasks : List EvidenceTask
  mece_score : ℚ
deriving DecidableEq, Repr

/-- `ReasoningPlan` (lines 78-90). -/
structure ReasoningPlan where
  run_id : String
  brief : String
  audience : String
  governing_thoughts : List String
  selected_thought : Option String
  reasons : List Reason
  sequence : List String
  risks : List String
  status : String
deriving DecidableEq, Repr

/-- The synthesis metrics (lines 758-768). -/
structure Metrics where
  mece_score : ℚ
  evidence_count : Nat
  avg_confidence : ℚ
  citations_count : Nat
  reasons_count : Nat
deriving DecidableEq, Repr

/-- The metadata of the synthesized deliverable (lines 591-601); the
markdown body is a pure string template and is not modelled. -/
structure Deliverable where
  run_id : String
  reasons_count : Nat
  evidence_count : Nat
deriving DecidableEq, Repr

/-- `RunState` (lines 100-109), restricted to the fields the claimed
operations read or write. -/
structure RunState where
  run_id : String
  plan : Option ReasoningPlan
  evidence_store : List (String × List EvidenceItem)
  deliverable : Option Deliverable
  metrics : Option Metrics
deriving DecidableEq, Repr

/-- `StateStore` (lines 116-152). -/
structure StateStore where
  runs : List (String × RunState)
  current_run_id : Option String
deriving DecidableEq, Repr

/-- `StateStore.get_run` (lines 143-145): an empty (falsy) `run_id` falls
back to `current_run_id`. -/
def get_run (store : StateStore) (run_id : String) : Option RunState :=
  let rid := if run_id == "" then store.current_run_id else some run_id
  rid.bind (fun r => store.runs.lookup r)

/-- `execute_evidence_task` (lines 385-417), parameterised over the search
collaborator: one evidence item per result with a recency bonus capped at
confidence 1. -/
def execute_evidence_task (search : String → Nat → List SearchResult)
    (task : EvidenceTask) : List EvidenceItem :=
  if task.kind == "search" && task.target == "tavily" then
    (search task.query task.max_results).enum.map (fun p =>
      let result := p.2
      let recency_bonus : ℚ := if result.published_date != "" then 0.1 else 0
      { content := result.content
        source := result.title
        url := result.url
        confidence := min 1 (result.score + recency_bonus)
        query := task.query
        rank := p.1 + 1
        citation_id := p.1 + 1 : EvidenceItem })
  else []

/-- The evidence gathered for one reason: its tasks' results concatenated
in task order (lines 676-682). -/
def reasonEvidence (search : String → Nat → List SearchResult) (r : Reason) :
    List EvidenceItem :=
  (r.tasks.map (execute_evidence_task search)).flatten

/-- A task marked `status = "completed"` (line 682). -/
def completeTask (t : EvidenceTask) : EvidenceTask :=
  { t with status := "completed" }

/-- A reason whose tasks have all been marked completed. -/
def completedReason (r : Reason) : Reason :=
  { r with tasks := r.tasks.map completeTask }

/-- The evidence-store accumulation loop of `run_plan_stage`
(lines 676-687): per processed reason, append its fresh evidence to the
store entry under the reason id. -/
def collectReasons (search : String → Nat → List SearchResult) :
    List Reason → List (String × List EvidenceItem) → List (String × List EvidenceItem)
  | [], g => g
  | r :: rs, g => collectReasons search rs (addToGroup g r.id (reasonEvidence search r))

/-- One row of the `evidence_collected` response list (lines 689-694). -/
structure StageSummary where
  reason_id : String
  reason_title : String
  evidence_count : Nat
  avg_confidence : ℚ
deriving DecidableEq, Repr

/-- The per-reason response rows (lines 689-694). -/
def stageSummaries (search : String → Nat → List SearchResult)
    (reasons : List Reason) : List StageSummary :=
  reasons.map (fun r =>
    let ev := reasonEvidence search r
    { reason_id := r.id
      reason_title := r.title
      evidence_count := ev.length
      avg_confidence := if ev.isEmpty then 0
        else (ev.map (fun e => e.confidence)).sum / (ev.length : ℚ) : StageSummary })

/-- The response dict of the server `run_plan_stage` (lines 662-663 and
702-709). -/
inductive StageResult where
  | error (msg : String)
  | ok (run_id stage status : String) (evidence_collected : List StageSummary)
      (total_evidence : Nat) (next_step : String)
deriving DecidableEq, Repr

/-- The reported `total_evidence` of a successful response. -/
def StageResult.total? : StageResult → Option Nat
  | .error _ => none
  | .ok _ _ _ _ t _ => some t

/-- The reason index for a `reason_k` stage selector:
`int(stage.split("_")[1]) - 1` (line 672), evaluated on the four values
the tool schema admits beside `"all"`. -/
def stageIndex (stage : String) : Nat :=
  if stage == "reason_1" then 0
  else if stage == "reason_2" then 1
  else if stage == "reason_3" then 2
  else 3

/-- The server `run_plan_stage` tool (lines 649-709), state passed
explicitly: executes the tasks of the selected reasons, APPENDS their
evidence to the per-reason store entries, marks the tasks completed and
reports the store-wide total. -/
def run_plan_stage (search : String → Nat → List SearchResult)
    (store : StateStore) (run_id : String) (stage : String) :
    StageResult × StateStore :=
  match get_run store run_id with
  | none => (.error "Run not found or not planned", store)
  | some run_state =>
    match run_state.plan with
    | none => (.error "Run not found or not planned", store)
    | some plan =>
      let reasons_to_process :=
        if stage == "all" then plan.reasons
        else
          let idx := stageIndex stage
          if h : idx < plan.reasons.length then [plan.reasons.get ⟨idx, h⟩] else []
      let new_store := collectReasons search reasons_to_process run_state.evidence_store
      let evidence_collected := stageSummaries search reasons_to_process
      let plan2 := { plan with reasons :=
        if stage == "all" then plan.reasons.map completedReason
        else plan.reasons.enum.map (fun p =>
          if p.1 == stageIndex stage then completedReason p.2 else p.2) }
      let run2 := { run_state with evidence_store := new_store, plan := some plan2 }
      (.ok run_id stage "evidence_collected" evidence_collected
        (totalEvidence new_store) "synthesize_pyramid",
       { store with runs := updateAssoc store.runs run_id run2 })

/-- One overlap record of `calculate_mece_score` (lines 321-326). -/
structure OverlapEntry where
  reason_1 : String
  reason_2 : String
  overlap_score : ℚ
  suggestion : String
deriving DecidableEq, Repr

/-- The mock overlap detection of `calculate_mece_score` (lines 317-326):
every pair `i < j` whose titles both contain "analysis". -/
def analysisOverlaps : List Reason → List OverlapEntry
  | [] => []
  | r :: rest =>
    (rest.filterMap (fun r2 =>
      if strContains (pyLower r.title) "analysis"
          && strContains (pyLower r2.title) "analysis" then
        some { reason_1 := r.id
               reason_2 := r2.id
               overlap_score := 0.3
               suggestion := "Consider merging or clarifying distinction" }
      else none)) ++ analysisOverlaps rest

/-- The report of `calculate_mece_score` (lines 306-342). -/
structure MeceScoreResult where
  score : ℚ
  overlaps : List OverlapEntry
  gaps : List String
  valid : Bool
  recommendations : List String
deriving DecidableEq, Repr

/-- `calculate_mece_score` (lines 306-342): 0.15 penalty per overlapping
pair, valid iff the score is at least 0.75. -/
def calculate_mece_score (reasons : List Reason) : MeceScoreResult :=
  if reasons.length < 2 then
    { score := 1, overlaps := [], gaps := [], valid := true, recommendations := [] }
  else
    let overlaps := analysisOverlaps reasons
    let score : ℚ := max 0 (1 - (0.15 : ℚ) * overlaps.length)
    { score := score
      overlaps := overlaps
      gaps := []
      valid := decide ((0.75 : ℚ) ≤ score)
      recommendations := if score < 0.75 then
          ["Ensure reasons are mutually exclusive",
           "Verify collective exhaustiveness",
           "Check abstraction level consistency"]
        else [] }

/-- The response of the server `synthesize_pyramid` tool: the three error
payloads (lines 724-725, 733-739, 743-749) or the success payload. -/
inductive SynthResult where
  | errorNotFound
  | errorMece (mece_score : ℚ) (issues : List OverlapEntry)
  | errorEvidence (required collected : Nat)
  | ok (run_id : String) (metrics : Metrics)
deriving DecidableEq, Repr

/-- The `error` field of the response payload, when present. -/
def SynthResult.error? : SynthResult → Option String
  | .errorNotFound => some "Run not found or not planned"
  | .errorMece _ _ => some "MECE validation failed"
  | .errorEvidence _ _ => some "Insufficient evidence"
  | .ok _ _ => none

/-- The post-lookup body of `synthesize_pyramid` (lines 730-780): quality
gates first — MECE validity, then evidence sufficiency (at least 2 items
per reason) — then deliverable and metrics are stored. -/
def synthesize_gates (store : StateStore) (run_id : String)
    (run_state : RunState) (plan : ReasoningPlan) : SynthResult × StateStore :=
  let mece_result := calculate_mece_score plan.reasons
      if !mece_result.valid then
        (.errorMece mece_result.score mece_result.overlaps, store)
      else
        let total_evidence := totalEvidence run_state.evidence_store
        if total_evidence < plan.reasons.length * 2 then
          (.errorEvidence (plan.reasons.length * 2) total_evidence, store)
        else
          let confidences := run_state.evidence_store.flatMap
            (fun e => e.2.map (fun i => i.confidence))
          let metrics : Metrics :=
            { mece_score := mece_result.score
              evidence_count := total_evidence
              avg_confidence := if 0 < total_evidence then
                  confidences.sum / (total_evidence : ℚ)
                else 0
              citations_count := total_evidence
              reasons_count := plan.reasons.length }
          let deliverable : Deliverable :=
            { run_id := plan.run_id
              reasons_count := plan.reasons.length
              evidence_count := total_evidence }
          let run2 := { run_state with
            deliverable := some deliverable, metrics := some metrics }
          (.ok run_id metrics, { store with runs := updateAssoc store.runs run_id run2 })

/-- `synthesize_pyramid` (lines 711-780), state passed explicitly: resolve
the run, then apply the quality gates. -/
def synthesize_pyramid (store : StateStore) (run_id : String) :
    SynthResult × StateStore :=
  match get_run store run_id with
  | none => (.errorNotFound, store)
  | some run_state =>
    match run_state.plan with
    | none => (.errorNotFound, store)
    | some plan => synthesize_gates store run_id run_state plan

/-- The evidence one "all"-stage pass appends under key `k`: the
concatenated evidence of the reasons with id `k`, in reason order. -/
def addedFor (search : String → Nat → List SearchResult) (reasons : List Reason)
    (k : String) : List EvidenceItem :=
  ((reasons.filter (fun r => r.id == k)).map (reasonEvidence search)).flatten

/-- The evidence store of the run stored under `run_id`, for stating the
append semantics. -/
def evidenceStoreOf (store : StateStore) (run_id : String) :
    List (String × List EvidenceItem) :=
  match store.runs.lookup run_id with
  | some rs => rs.evidence_store
  | none => []

end Minto.Server

namespace Minto.Fixtures

/-! ## Concrete runs used by witnesses and counterexamples -/

open Minto.Reasoning

/-- A planned run in the reasoning-module state: 4 reasons with 2 evidence
queries each (the shape `create_evidence_tasks` produces), all routed with
the `academic` search type (the strategy `get_search_strategy` assigns to
technical runs). -/
def academicPlan : Plan :=
  { run_id := "r1"
    status := "planned"
    domain := "technical"
    subdomain := some "photonics"
    confidence := 0
    scqa := { situation := "s", complication := "c", question := "q", answer := "a" }
    governing_thought := "a"
    reasons :=
      [⟨"reason_1", "Device Design", "c1", 2, "general"⟩,
       ⟨"reason_2", "Fabrication Rules", "c2", 2, "general"⟩,
       ⟨"reason_3", "Performance Checks", "c3", 2, "general"⟩,
       ⟨"reason_4", "Validation Work", "c4", 2, "general"⟩]
    logical_order_type := "structural"
    evidence_tasks :=
      [⟨"reason_1", "Device Design photonics", "academic", "primary_evidence"⟩,
       ⟨"reason_1", "Device Design recent advances 2024", "academic", "current_state"⟩,
       ⟨"reason_2", "Fabrication Rules photonics", "academic", "primary_evidence"⟩,
       ⟨"reason_2", "Fabrication Rules recent advances 2024", "academic", "current_state"⟩,
       ⟨"reason_3", "Performance Checks photonics", "academic", "primary_evidence"⟩,
       ⟨"reason_3", "Performance Checks recent advances 2024", "academic", "current_state"⟩,
       ⟨"reason_4", "Validation Work photonics", "academic", "primary_evidence"⟩,
       ⟨"reason_4", "Validation Work recent advances 2024", "academic", "current_state"⟩]
    search_strategy := "academic"
    audience := "executives"
    brief := "b"
    evidence_collected := []
    critique := none }

/-- The reasoning-module state holding `academicPlan` under `"r1"`. -/
def academicState : List (String × Plan) := [("r1", academicPlan)]

/-- A minimal planned run with one reason and one general-typed query. -/
def smallPlan : Plan :=
  { run_id := "r2"
    status := "planned"
    domain := "general"
    subdomain := none
    confidence := 0
    scqa := { situation := "s", complication := "c", question := "q", answer := "a" }
    governing_thought := "a"
    reasons := [⟨"reason_1", "Key Challenges", "c1", 2, "general"⟩]
    logical_order_type := "comparative"
    evidence_tasks := [⟨"reason_1", "Key Challenges ", "general", "primary_evidence"⟩]
    search_strategy := "general"
    audience := "executives"
    brief := "b"
    evidence_collected := []
    critique := none }

/-- The reasoning-module state holding `smallPlan` under `"r2"`. -/
def smallState : List (String × Plan) := [("r2", smallPlan)]

/-- A deterministic search collaborator returning exactly one result per
query (score 0, no publication date). -/
def oneResult : String → Nat → List Server.SearchResult :=
  fun q _ => [{ title := "Result: " ++ q, url := "https://example.org/r", content := "c",
                score := 0, published_date := "" }]

/-- A server-side planned run with the four default reason titles of
`create_reasoning_plan` and two search tasks per reason, with an empty
evidence store. -/
def serverPlan : Server.ReasoningPlan :=
  { run_id := "r1"
    brief := "b"
    audience := "executives"
    governing_thoughts := ["g"]
    selected_thought := some "g"
    reasons :=
      [⟨"reason_1", "Market Position Analysis", "c1",
        [⟨"reason_1_task_1", "search", "tavily", "Market Position Analysis b", 3, "pending"⟩,
         ⟨"reason_1_task_2", "search", "tavily", "Market Position Analysis industry trends", 2, "pending"⟩], 0⟩,
       ⟨"reason_2", "Operational Efficiency", "c2",
        [⟨"reason_2_task_1", "search", "tavily", "Operational Efficiency b", 3, "pending"⟩,
         ⟨"reason_2_task_2", "search", "tavily", "Operational Efficiency industry trends", 2, "pending"⟩], 0⟩,
       ⟨"reason_3", "Revenue Model Evolution", "c3",
        [⟨"reason_3_task_1", "search", "tavily", "Revenue Model Evolution b", 3, "pending"⟩,
         ⟨"reason_3_task_2", "search", "tavily", "Revenue Model Evolution industry trends", 2, "pending"⟩], 0⟩,
       ⟨"reason_4", "Strategic Positioning", "c4",
        [⟨"reason_4_task_1", "search", "tavily", "Strategic Positioning b", 3, "pending"⟩,
         ⟨"reason_4_task_2", "search", "tavily", "Strategic Positioning industry trends", 2, "pending"⟩], 0⟩]
    sequence := []
    risks := []
    status := "planned" }

/-- The run state holding `serverPlan` with an empty evidence store. -/
def serverRun : Server.RunState :=
  { run_id := "r1"
    plan := some serverPlan
    evidence_store := []
    deliverable := none
    metrics := none }

/-- The server state store holding `serverRun` under `"r1"`. -/
def serverStore : Server.StateStore :=
  { runs := [("r1", serverRun)], current_run_id := some "r1" }

end Minto.Fixtures

namespace Minto

/-- The status progression the spec states for an analysis record. -/
def statusOrder : List String :=
  ["planned", "evidence_collected", "synthesized", "critiqued", "finalized"]

/-- The position of a status in the forward progression. -/
def statusRank (s : String) : Nat := statusOrder.indexOf s

end Minto

namespace Minto.MeceValidator

/-! ### Helper lemmas for the validator -/

/-- Every qualifying pair `i < j` contributes its overlap record to
`check_mutual_exclusivity`. -/
theorem overlapEntry_mem_check (rs : List Reason) :
    ∀ (i j : Nat) (hij : i < j) (hj : j < rs.length) (o : Overlap),
      overlapEntry (rs.get ⟨i, Nat.lt_trans hij hj⟩) (rs.get ⟨j, hj⟩) = some o →
      o ∈ check_mutual_exclusivity rs := by
  induction rs with
  | nil => intro i j hij hj o he; exact absurd hj (Nat.not_lt_zero j)
  | cons r rest ih =>
    intro i j hij hj o he
    match i, j with
    | 0, 0 => exact absurd hij (Nat.lt_irrefl 0)
    | 0, j' + 1 =>
      apply List.mem_append_left
      exact List.mem_filterMap.mpr
        ⟨rest.get ⟨j', Nat.lt_of_succ_lt_succ hj⟩, List.get_mem _ _ _, he⟩
    | i' + 1, 0 => exact absurd hij (Nat.not_lt_zero _)
    | i' + 1, j' + 1 =>
      apply List.mem_append_right
      exact ih i' j' (Nat.lt_of_succ_lt_succ hij) (Nat.lt_of_succ_lt_succ hj) o he

theorem mutually_exclusive_false_of_mem (reasons : List Reason)
    (brief domain : String) (o : Overlap)
    (ho : o ∈ (validate_mece_structure reasons brief domain).overlaps) :
    (validate_mece_structure reasons brief domain).mutually_exclusive = false := by
  have hlen : 0 < (check_mutual_exclusivity reasons).length :=
    List.length_pos_of_mem ho
  simp [validate_mece_structure, hlen]

end Minto.MeceValidator

namespace Minto.MeceValidator

/-- C1: for every plan record (any list of reasons, any brief and domain),
`is_mece` equals exactly the conjunction of the four reported sub-checks —
mutual exclusivity, collective exhaustiveness, cognitive load and same
kind — and the cognitive-load sub-check is exactly "category count in
[1,4]".  No other condition enters. -/
theorem is_mece_pure_conjunction (reasons : List Reason) (brief domain : String) :
    (validate_mece_structure reasons brief domain).is_mece
      = ((validate_mece_structure reasons brief domain).mutually_exclusive
        && (validate_mece_structure reasons brief domain).collectively_exhaustive
        && (validate_mece_structure reasons brief domain).cognitive_load_ok
        && (validate_mece_structure reasons brief domain).same_kind)
    ∧ (validate_mece_structure reasons brief domain).cognitive_load_ok
      = (decide (1 ≤ reasons.length) && decide (reasons.length ≤ 4)) :=
  ⟨rfl, rfl⟩

/-- C2: whenever two distinct reasons (positions `i < j`) have lowercased,
whitespace-tokenized titles sharing at least 2 distinct words outside the
stopword set, the validator reports `mutually_exclusive = false` and the
pair appears in `overlaps`, with severity `"high"` at ≥ 3 shared words and
`"medium"` otherwise. -/
theorem mutual_exclusivity_flags_shared_titles (reasons : List Reason)
    (brief domain : String) (i j : Nat) (hij : i < j) (hj : j < reasons.length)
    (r1 r2 : Reason) (h1 : reasons.get ⟨i, Nat.lt_trans hij hj⟩ = r1)
    (h2 : reasons.get ⟨j, hj⟩ = r2)
    (hshare : 2 ≤ (commonSignificant r1.title r2.title).length) :
    (validate_mece_structure reasons brief domain).mutually_exclusive = false ∧
    ∃ o ∈ (validate_mece_structure reasons brief domain).overlaps,
      o.category_1 = r1.title ∧ o.category_2 = r2.title ∧
      o.overlap = commonSignificant r1.title r2.title ∧
      o.severity = (if 3 ≤ (commonSignificant r1.title r2.title).length
        then "high" else "medium") := by
  have hentry : overlapEntry r1 r2 =
      some { category_1 := r1.title, category_2 := r2.title,
             overlap := commonSignificant r1.title r2.title,
             severity := if 3 ≤ (commonSignificant r1.title r2.title).length
               then "high" else "medium" } := by
    unfold overlapEntry
    simp [hshare]
  have hmem : _ ∈ check_mutual_exclusivity reasons :=
    overlapEntry_mem_check reasons i j hij hj _ (by rw [h1, h2]; exact hentry)
  have hov : _ ∈ (validate_mece_structure reasons brief domain).overlaps := hmem
  exact ⟨mutually_exclusive_false_of_mem reasons brief domain _ hov,
    ⟨_, hov, rfl, rfl, rfl, rfl⟩⟩

/-- Witness for `mutual_exclusivity_flags_shared_titles` at a concrete pair
of reasons whose titles share the two significant words
`market` and `growth`. -/
theorem mutual_exclusivity_flags_shared_titles_witness :
    (2 ≤ (commonSignificant "Market Growth Analysis" "Growth Market Trends").length) ∧
    ((validate_mece_structure
        [⟨"reason_1", "Market Growth Analysis", "", 2, "analysis"⟩,
         ⟨"reason_2", "Growth Market Trends", "", 2, "general"⟩] "" "").mutually_exclusive
        = false ∧
      ∃ o ∈ (validate_mece_structure
        [⟨"reason_1", "Market Growth Analysis", "", 2, "analysis"⟩,
         ⟨"reason_2", "Growth Market Trends", "", 2, "general"⟩] "" "").overlaps,
        o.category_1 = "Market Growth Analysis" ∧ o.category_2 = "Growth Market Trends" ∧
        o.overlap = commonSignificant "Market Growth Analysis" "Growth Market Trends" ∧
        o.severity = (if 3 ≤ (commonSignificant "Market Growth Analysis"
            "Growth Market Trends").length then "high" else "medium")) :=
  ⟨by decide,
   mutual_exclusivity_flags_shared_titles
     [⟨"reason_1", "Market Growth Analysis", "", 2, "analysis"⟩,
      ⟨"reason_2", "Growth Market Trends", "", 2, "general"⟩] "" "" 0 1
     (by decide) (by decide) _ _ rfl rfl (by decide)⟩

end Minto.MeceValidator

namespace Minto.DomainDetector

open DomainType

/-! ### Helper lemmas for the domain detector -/

theorem foldl_best_mem (x : DomainType × Nat) (xs : List (DomainType × Nat)) :
    xs.foldl (fun best y => if best.2 < y.2 then y else best) x ∈ x :: xs := by
  induction xs generalizing x with
  | nil => exact List.mem_singleton.mpr rfl
  | cons y ys ih =>
    by_cases hc : x.2 < y.2
    · simp only [List.foldl_cons, if_pos hc]
      exact List.mem_cons_of_mem x (ih y)
    · simp only [List.foldl_cons, if_neg hc]
      rcases List.mem_cons.mp (ih x) with h1 | h2
      · rw [h1]; exact List.mem_cons_self x (y :: ys)
      · exact List.mem_cons_of_mem x (List.mem_cons_of_mem y h2)

theorem foldl_best_ge (x : DomainType × Nat) (xs : List (DomainType × Nat)) :
    ∀ p ∈ x :: xs, p.2 ≤ (xs.foldl (fun best y => if best.2 < y.2 then y else best) x).2 := by
  induction xs generalizing x with
  | nil =>
    intro p hp
    rw [List.mem_singleton.mp hp]
    exact Nat.le_refl _
  | cons y ys ih =>
    intro p hp
    by_cases hc : x.2 < y.2
    · simp only [List.foldl_cons, if_pos hc]
      rcases List.mem_cons.mp hp with h1 | h2
      · exact h1 ▸ Nat.le_trans (Nat.le_of_lt hc) (ih y y (List.mem_cons_self y ys))
      · exact ih y p h2
    · simp only [List.foldl_cons, if_neg hc]
      rcases List.mem_cons.mp hp with h1 | h2
      · exact h1 ▸ ih x x (List.mem_cons_self x ys)
      · rcases List.mem_cons.mp h2 with h3 | h4
        · exact h3 ▸ Nat.le_trans (Nat.le_of_not_lt hc) (ih x x (List.mem_cons_self x ys))
        · exact ih x p (List.mem_cons_of_mem x h4)

theorem selectTop_mem (l : List (DomainType × Nat)) (hl : l ≠ []) : selectTop l ∈ l := by
  match l with
  | [] => exact absurd rfl hl
  | x :: xs => exact foldl_best_mem x xs

theorem selectTop_ge (l : List (DomainType × Nat)) : ∀ p ∈ l, p.2 ≤ (selectTop l).2 := by
  match l with
  | [] => intro p hp; exact absurd hp (List.not_mem_nil p)
  | x :: xs => exact foldl_best_ge x xs

theorem domainScore_eq_zero_iff (bl : String) (cats : List (String × List String)) :
    domainScore bl cats = 0 ↔
      ∀ c ∈ cats, ∀ kw ∈ c.2, strContains bl kw = false := by
  unfold domainScore
  rw [List.sum_eq_zero_iff]
  constructor
  · intro h c hc kw hkw
    have h0 := h ((c.2.filter (fun kw => strContains bl kw)).length)
      (List.mem_map_of_mem _ hc)
    have hnil := List.length_eq_zero.mp h0
    have := (List.filter_eq_nil_iff.mp hnil) kw hkw
    exact Bool.not_eq_true _ ▸ eq_false_of_ne_true this
  · intro h n hn
    rw [List.mem_map] at hn
    obtain ⟨c, hc, rfl⟩ := hn
    rw [List.length_eq_zero, List.filter_eq_nil_iff]
    intro kw hkw
    exact ne_true_of_eq_false (h c hc kw hkw)

theorem all_scores_zero_iff (brief : String) :
    (∀ p ∈ domainScores brief, p.2 = 0) ↔
      ∀ kw ∈ allDomainKeywords, strContains (pyLower brief) kw = false := by
  unfold domainScores allDomainKeywords
  constructor
  · intro h kw hkw
    obtain ⟨q, hq, hkw2⟩ := List.mem_flatMap.mp hkw
    obtain ⟨c, hc, hkwc⟩ := List.mem_flatMap.mp hkw2
    have hp := h (q.1, domainScore (pyLower brief) q.2) (List.mem_map_of_mem _ hq)
    exact (domainScore_eq_zero_iff _ _).mp hp c hc kw hkwc
  · intro h p hp
    rw [List.mem_map] at hp
    obtain ⟨q, hq, rfl⟩ := hp
    refine (domainScore_eq_zero_iff _ _).mpr ?_
    intro c hc kw hkw
    exact h kw (List.mem_flatMap.mpr ⟨q, hq, List.mem_flatMap.mpr ⟨c, hc, hkw⟩⟩)

theorem domainScores_fst_ne_general (brief : String) :
    ∀ p ∈ domainScores brief, p.1 ≠ GENERAL := by
  intro p hp
  unfold domainScores at hp
  rw [List.mem_map] at hp
  obtain ⟨q, hq, rfl⟩ := hp
  have htab : ∀ q ∈ DOMAIN_KEYWORDS, q.1 ≠ GENERAL := by decide
  exact htab q hq

theorem domainScores_ne_nil (brief : String) : domainScores brief ≠ [] := by
  unfold domainScores DOMAIN_KEYWORDS
  simp

/-- C3: `detect_domain` always returns a domain from the fixed closed set,
and returns `GENERAL` exactly when no keyword from any domain's keyword
table occurs (case-insensitively) in the brief. -/
theorem detect_domain_closed_set_and_general_iff (brief : String) :
    detect_domain_primary brief ∈
      [TECHNICAL, BUSINESS, SCIENTIFIC, MEDICAL, LEGAL, SOCIAL, INTERDISCIPLINARY, GENERAL]
    ∧ (detect_domain_primary brief = GENERAL ↔
        ∀ kw ∈ allDomainKeywords, strContains (pyLower brief) kw = false) := by
  constructor
  · cases h : detect_domain_primary brief <;> simp
  · rw [← all_scores_zero_iff]
    unfold detect_domain_primary
    constructor
    · intro hgen p hp
      by_cases htop : 0 < (selectTop (domainScores brief)).2
      · rw [if_pos htop] at hgen
        exact absurd hgen
          (domainScores_fst_ne_general brief _
            (selectTop_mem _ (domainScores_ne_nil brief)))
      · exact Nat.le_antisymm
          (Nat.le_trans (selectTop_ge _ p hp) (Nat.le_of_not_lt htop)) (Nat.zero_le _)
    · intro hzero
      have htop : (selectTop (domainScores brief)).2 = 0 :=
        hzero _ (selectTop_mem _ (domainScores_ne_nil brief))
      show (if 0 < (selectTop (domainScores brief)).2
        then (selectTop (domainScores brief)).1 else GENERAL) = GENERAL
      rw [htop]
      simp

end Minto.DomainDetector

namespace Minto

/-- A `lookup` hit returns one of the stored values. -/
theorem lookup_mem_snd {α β : Type} [BEq α] {l : List (α × β)} {k : α} {v : β}
    (h : List.lookup k l = some v) : v ∈ l.map Prod.snd := by
  induction l with
  | nil => simp [List.lookup] at h
  | cons e t ih =>
    obtain ⟨a, b⟩ := e
    by_cases hk : (k == a) = true
    · simp only [List.lookup, hk] at h
      simp [← Option.some.inj h]
    · simp only [List.lookup, hk] at h
      simp [ih h]

end Minto

namespace Minto.MeceGen

/-! ### Helper lemmas for the template selector -/

theorem mece_template_lists_length :
    ∀ p ∈ MECE_TEMPLATES, ∀ q ∈ p.2, q.2.length = 3 := by decide

theorem lens_template_lists_length :
    ∀ p ∈ LENS_BASED_TEMPLATES, p.2.length = 3 := by decide

theorem mem_snd_template_length {dt : List (String × List String)}
    (hdt : dt ∈ MECE_TEMPLATES.map Prod.snd) {t : List String}
    (ht : t ∈ dt.map Prod.snd) : t.length = 3 := by
  rw [List.mem_map] at hdt ht
  obtain ⟨p, hp, rfl⟩ := hdt
  obtain ⟨q, hq, rfl⟩ := ht
  exact mece_template_lists_length p hp q hq

theorem select_mece_template_length (domain : DomainType) (subdomain : Option String)
    (lenses : List AnalysisLens) :
    (select_mece_template domain subdomain lenses).length = 3 := by
  unfold select_mece_template
  split
  case h_1 dt hd =>
    have hdt : dt ∈ MECE_TEMPLATES.map Prod.snd := lookup_mem_snd hd
    split
    case h_1 t hsub =>
      obtain ⟨s, _, hst⟩ := Option.bind_eq_some.mp hsub
      exact mem_snd_template_length hdt (lookup_mem_snd hst)
    case h_2 hsub =>
      split
      case h_1 d0 hdef => exact mem_snd_template_length hdt (lookup_mem_snd hdef)
      case h_2 hdef =>
        cases hmap : dt.map Prod.snd with
        | nil => rfl
        | cons h0 t0 =>
          have hh0 : h0 ∈ dt.map Prod.snd := by
            rw [hmap]; exact List.mem_cons_self h0 t0
          exact mem_snd_template_length hdt hh0
  case h_2 hd =>
    split
    case h_1 l hl =>
      split
      case h_1 t ht =>
        have hmem := lookup_mem_snd ht
        rw [List.mem_map] at hmem
        obtain ⟨p, hp, rfl⟩ := hmem
        exact lens_template_lists_length p hp
      case h_2 ht => rfl
    case h_2 hl => rfl

/-- C4: for every domain/subdomain (and lens) input, the template selector
plus the cognitive-load truncation of `generate_mece_reasons` yields
between 3 and 4 category titles; selection honours the priority
domain+subdomain → domain default, and any selected list longer than 4 is
truncated to exactly 4. -/
theorem template_selector_bounds (domain : DomainType) (subdomain : Option String)
    (lenses : List AnalysisLens) :
    3 ≤ (generate_categories domain subdomain lenses).length ∧
    (generate_categories domain subdomain lenses).length ≤ 4 ∧
    (∀ dt t, MECE_TEMPLATES.lookup domain = some dt →
      subdomain.bind (fun s => dt.lookup s) = some t →
      select_mece_template domain subdomain lenses = t) ∧
    (∀ dt d0, MECE_TEMPLATES.lookup domain = some dt →
      subdomain.bind (fun s => dt.lookup s) = none →
      dt.lookup "default" = some d0 →
      select_mece_template domain subdomain lenses = d0) ∧
    (4 < (select_mece_template domain subdomain lenses).length →
      generate_categories domain subdomain lenses
        = (select_mece_template domain subdomain lenses).take 4) := by
  have hlen := select_mece_template_length domain subdomain lenses
  have hgen : generate_categories domain subdomain lenses
      = select_mece_template domain subdomain lenses := by
    simp [generate_categories, hlen]
  refine ⟨?_, ?_, ?_, ?_, ?_⟩
  · rw [hgen, hlen]
  · rw [hgen, hlen]
    exact Nat.le_succ 3
  · intro dt t hd hsub
    unfold select_mece_template
    rw [hd]
    show (match subdomain.bind (fun s => List.lookup s dt) with
      | some t => t
      | none =>
        match List.lookup "default" dt with
        | some d => d
        | none => (dt.map Prod.snd).headD
            ["Current State & Context", "Key Challenges", "Potential Solutions"]) = t
    rw [hsub]
  · intro dt d0 hd hsub hdef
    unfold select_mece_template
    rw [hd]
    show (match subdomain.bind (fun s => List.lookup s dt) with
      | some t => t
      | none =>
        match List.lookup "default" dt with
        | some d => d
        | none => (dt.map Prod.snd).headD
            ["Current State & Context", "Key Challenges", "Potential Solutions"]) = d0
    rw [hsub, hdef]
  · intro hgt
    rw [hlen] at hgt
    exact absurd hgt (by decide)

/-- Witness for `template_selector_bounds` at the technical/photonics pair:
the bound holds and the subdomain-specific template is selected. -/
theorem template_selector_bounds_witness :
    (3 ≤ (generate_categories DomainType.TECHNICAL_ENGINEERING (some "photonics") []).length
      ∧ (generate_categories DomainType.TECHNICAL_ENGINEERING (some "photonics") []).length ≤ 4)
    ∧ select_mece_template DomainType.TECHNICAL_ENGINEERING (some "photonics") []
        = ["Device Design & Geometry",
           "Fabrication Constraints & Foundry Rules",
           "Performance Optimization & Validation"] :=
  ⟨⟨(template_selector_bounds DomainType.TECHNICAL_ENGINEERING (some "photonics") []).1,
    (template_selector_bounds DomainType.TECHNICAL_ENGINEERING (some "photonics") []).2.1⟩,
   (template_selector_bounds DomainType.TECHNICAL_ENGINEERING (some "photonics") []).2.2.1
     _ _ rfl rfl⟩

end Minto.MeceGen

namespace Minto

/-! ### Association-list accounting lemmas -/

theorem totalEvidence_addToGroup {α : Type} (g : List (String × List α))
    (rid : String) (items : List α) :
    totalEvidence (addToGroup g rid items) = totalEvidence g + items.length := by
  induction g with
  | nil => simp [addToGroup, totalEvidence]
  | cons e g ih =>
    by_cases he : (e.1 == rid) = true
    · simp only [addToGroup, he, if_true, totalEvidence, List.map_cons, List.sum_cons,
        List.length_append]
      simp only [totalEvidence] at *
      omega
    · simp only [addToGroup, he, if_false, Bool.false_eq_true, totalEvidence,
        List.map_cons, List.sum_cons]
      simp only [totalEvidence] at ih
      omega

theorem lookupGroup_addToGroup {α : Type} (g : List (String × List α))
    (rid k : String) (items : List α) :
    lookupGroup (addToGroup g rid items) k
      = lookupGroup g k ++ (if rid = k then items else []) := by
  induction g with
  | nil =>
    by_cases h : rid = k
    · subst h
      simp [addToGroup, lookupGroup, List.lookup]
    · have hb : (k == rid) = false := beq_eq_false_iff_ne.mpr (Ne.symm h)
      simp [addToGroup, lookupGroup, List.lookup, hb, h]
  | cons e g ih =>
    obtain ⟨a, b⟩ := e
    by_cases he : a = rid
    · subst he
      by_cases hk : k = a
      · subst hk
        simp [addToGroup, lookupGroup, List.lookup]
      · have hkb : (k == a) = false := beq_eq_false_iff_ne.mpr hk
        have hna : ¬(a = k) := fun hc => hk hc.symm
        simp [addToGroup, lookupGroup, List.lookup, hkb, hna]
    · have heb : (a == rid) = false := beq_eq_false_iff_ne.mpr he
      by_cases hk : k = a
      · subst hk
        have hna : ¬(rid = k) := fun hc => he hc.symm
        simp [addToGroup, lookupGroup, List.lookup, heb, hna]
      · have hkb : (k == a) = false := beq_eq_false_iff_ne.mpr hk
        simp only [addToGroup, heb, if_false, Bool.false_eq_true, lookupGroup,
          List.lookup, hkb]
        simpa [lookupGroup] using ih

theorem lookup_updateAssoc {α : Type} {l : List (String × α)} {k : String} (v : α)
    {old : α} (h : List.lookup k l = some old) :
    List.lookup k (updateAssoc l k v) = some v := by
  induction l with
  | nil => simp [List.lookup] at h
  | cons e t ih =>
    obtain ⟨a, b⟩ := e
    by_cases hk : k = a
    · subst hk
      have hhead : updateAssoc ((k, b) :: t) k v = (k, v) :: updateAssoc t k v := by
        unfold updateAssoc
        simp
      rw [hhead]
      simp [List.lookup]
    · have hb2 : (k == a) = false := beq_eq_false_iff_ne.mpr hk
      have hb1 : (a == k) = false := beq_eq_false_iff_ne.mpr (Ne.symm hk)
      have hhead : updateAssoc ((a, b) :: t) k v = (a, b) :: updateAssoc t k v := by
        show (if (a == k) = true then (a, v) else (a, b)) :: updateAssoc t k v
          = (a, b) :: updateAssoc t k v
        rw [if_neg]
        simp [hb1]
      simp only [List.lookup, hb2] at h
      rw [hhead]
      simp only [List.lookup, hb2]
      exact ih h

theorem sum_map_const_nat {α : Type} (l : List α) (c : Nat) :
    (l.map (fun _ => c)).sum = l.length * c := by
  induction l with
  | nil => simp
  | cons a t ih => simp [ih, Nat.succ_mul, Nat.add_comm]

theorem zip_map_self {α β : Type} (l : List α) (f : α → β) :
    l.zip (l.map f) = l.map (fun a => (a, f a)) := by
  induction l with
  | nil => rfl
  | cons a t ih => simp [ih]

end Minto

namespace Minto.Execution

open Minto.Reasoning

/-! ### Evidence-stage lemmas (`src/reasoning/execution.py`) -/

/-- For the academic search type the router issues two enhanced queries,
so the one-item stub yields two items per task. -/
theorem search_count_academic (query domain : String) :
    (search_evidence_domain_aware query "academic" domain 5).length = 2 := rfl

theorem search_count_business (query domain : String) :
    (search_evidence_domain_aware query "business" domain 5).length = 2 := rfl

theorem search_count_medical (query domain : String) :
    (search_evidence_domain_aware query "medical" domain 5).length = 2 := rfl

/-- For any other search type the router issues the single raw query, so
the one-item stub yields one item per task. -/
theorem search_count_general (query domain st : String)
    (h1 : st ≠ "academic") (h2 : st ≠ "business") (h3 : st ≠ "medical") :
    (search_evidence_domain_aware query st domain 5).length = 1 := by
  have b1 : (st == "academic") = false := beq_eq_false_iff_ne.mpr h1
  have b2 : (st == "business") = false := beq_eq_false_iff_ne.mpr h2
  have b3 : (st == "medical") = false := beq_eq_false_iff_ne.mpr h3
  simp [search_evidence_domain_aware, enhancedQueries, b1, b2, b3,
    gatherResults, search_web_evidence]

theorem totalEvidence_collectFold (ps : List (EvidenceTask × List EvidenceItem))
    (g : List (String × List EvidenceItem)) :
    totalEvidence (ps.foldl (fun acc p => addToGroup acc p.1.reason_id p.2) g)
      = totalEvidence g + (ps.map (fun p => p.2.length)).sum := by
  induction ps generalizing g with
  | nil => simp
  | cons p ps ih =>
    simp only [List.foldl_cons, List.map_cons, List.sum_cons]
    rw [ih, totalEvidence_addToGroup]
    omega

/-- The reported total is the sum of the per-task result sizes. -/
theorem totalEvidence_collectEvidence (tasks : List EvidenceTask)
    (f : EvidenceTask → List EvidenceItem) :
    totalEvidence (collectEvidence tasks (tasks.map f))
      = (tasks.map (fun t => (f t).length)).sum := by
  unfold collectEvidence
  rw [totalEvidence_collectFold, zip_map_self]
  have h0 : totalEvidence ([] : List (String × List EvidenceItem)) = 0 := rfl
  rw [h0, Nat.zero_add, List.map_map]
  rfl

end Minto.Execution

namespace Minto.Execution

open Minto.Reasoning Minto.Fixtures

/-- C5 (amended): for a planned run with 4 reasons and 2 evidence queries
per reason, with the stubbed search returning exactly one item per query,
`run_plan_stage(run_id, "all")` reports a total of 8 when no task carries
an academic/business/medical search type (the router then sends one query
per task); with the academic search type the router sends two enhanced
queries per task, and the reported total is 16. -/
theorem evidence_stage_total (state : List (String × Plan)) (run_id : String)
    (plan : Plan) (h : state.lookup run_id = some plan)
    (_hreasons : plan.reasons.length = 4)
    (htasks : plan.evidence_tasks.length = 8) :
    ((∀ t ∈ plan.evidence_tasks,
        t.search_type ≠ "academic" ∧ t.search_type ≠ "business" ∧ t.search_type ≠ "medical") →
      (run_plan_stage state run_id "all").1.total? = some 8)
    ∧ ((∀ t ∈ plan.evidence_tasks, t.search_type = "academic") →
      (run_plan_stage state run_id "all").1.total? = some 16) := by
  have hrun : (run_plan_stage state run_id "all").1.total?
      = some (totalEvidence (collectEvidence plan.evidence_tasks
          (plan.evidence_tasks.map (fun t =>
            search_evidence_domain_aware t.query t.search_type plan.domain 5)))) := by
    unfold run_plan_stage
    rw [h]
    rfl
  constructor
  · intro hgen
    rw [hrun, totalEvidence_collectEvidence]
    have hmap : plan.evidence_tasks.map (fun t =>
        (search_evidence_domain_aware t.query t.search_type plan.domain 5).length)
        = plan.evidence_tasks.map (fun _ => 1) := by
      apply List.map_congr_left
      intro t ht
      exact search_count_general t.query plan.domain t.search_type
        (hgen t ht).1 (hgen t ht).2.1 (hgen t ht).2.2
    rw [hmap, sum_map_const_nat, htasks]
  · intro hacad
    rw [hrun, totalEvidence_collectEvidence]
    have hmap : plan.evidence_tasks.map (fun t =>
        (search_evidence_domain_aware t.query t.search_type plan.domain 5).length)
        = plan.evidence_tasks.map (fun _ => 2) := by
      apply List.map_congr_left
      intro t ht
      rw [hacad t ht]
      exact search_count_academic t.query plan.domain
    rw [hmap, sum_map_const_nat, htasks]

/-- C5 counterexample: a planned run with 4 reasons and 2 academic
evidence queries per reason — the stub still returns one item per query —
reports a total of 16, not 8. -/
theorem evidence_stage_total_counterexample :
    (run_plan_stage academicState "r1" "all").1.total? = some 16 ∧
    (run_plan_stage academicState "r1" "all").1.total? ≠ some 8 := by
  constructor
  · decide
  · decide

/-- Witness for `evidence_stage_total` at the concrete academic run. -/
theorem evidence_stage_total_witness :
    (List.lookup "r1" academicState = some academicPlan
      ∧ academicPlan.reasons.length = 4
      ∧ academicPlan.evidence_tasks.length = 8
      ∧ (∀ t ∈ academicPlan.evidence_tasks, t.search_type = "academic"))
    ∧ (run_plan_stage academicState "r1" "all").1.total? = some 16 :=
  ⟨⟨rfl, rfl, rfl, by decide⟩,
   (evidence_stage_total academicState "r1" academicPlan rfl rfl rfl).2 (by decide)⟩

end Minto.Execution

namespace Minto.Server

/-! ### Server evidence-stage lemmas (`src/server.py`) -/

/-- Marking a task completed does not change the evidence its execution
produces. -/
theorem execute_completeTask (search : String → Nat → List SearchResult)
    (t : EvidenceTask) :
    execute_evidence_task search (completeTask t) = execute_evidence_task search t := rfl

theorem reasonEvidence_completed (search : String → Nat → List SearchResult)
    (r : Reason) :
    reasonEvidence search (completedReason r) = reasonEvidence search r := by
  show ((r.tasks.map completeTask).map (execute_evidence_task search)).flatten
    = (r.tasks.map (execute_evidence_task search)).flatten
  rw [List.map_map]
  congr 1

theorem lookupGroup_collectReasons (search : String → Nat → List SearchResult)
    (reasons : List Reason) (g : List (String × List EvidenceItem)) (k : String) :
    lookupGroup (collectReasons search reasons g) k
      = lookupGroup g k ++ addedFor search reasons k := by
  induction reasons generalizing g with
  | nil => simp [collectReasons, addedFor]
  | cons r rs ih =>
    simp only [collectReasons]
    rw [ih, lookupGroup_addToGroup]
    by_cases h : r.id = k
    · have hb : (r.id == k) = true := beq_iff_eq.mpr h
      simp [addedFor, List.filter_cons, hb, h, List.append_assoc]
    · have hb : (r.id == k) = false := beq_eq_false_iff_ne.mpr h
      simp [addedFor, List.filter_cons, hb, h]

theorem totalEvidence_collectReasons (search : String → Nat → List SearchResult)
    (reasons : List Reason) (g : List (String × List EvidenceItem)) :
    totalEvidence (collectReasons search reasons g)
      = totalEvidence g
        + (reasons.map (fun r => (reasonEvidence search r).length)).sum := by
  induction reasons generalizing g with
  | nil => simp [collectReasons]
  | cons r rs ih =>
    simp only [collectReasons, List.map_cons, List.sum_cons]
    rw [ih, totalEvidence_addToGroup]
    omega

theorem collectReasons_completed (search : String → Nat → List SearchResult)
    (reasons : List Reason) (g : List (String × List EvidenceItem)) :
    collectReasons search (reasons.map completedReason) g
      = collectReasons search reasons g := by
  induction reasons generalizing g with
  | nil => rfl
  | cons r rs ih =>
    simp only [List.map_cons, collectReasons]
    rw [reasonEvidence_completed]
    exact ih _

/-- The server `run_plan_stage` on stage `"all"` for a planned run:
explicit response and state. -/
theorem run_plan_stage_all_spec (search : String → Nat → List SearchResult)
    (store : StateStore) (run_id : String) (rs : RunState) (plan : ReasoningPlan)
    (hrid : (run_id == "") = false)
    (h : store.runs.lookup run_id = some rs) (hplan : rs.plan = some plan) :
    run_plan_stage search store run_id "all"
      = (.ok run_id "all" "evidence_collected" (stageSummaries search plan.reasons)
          (totalEvidence (collectReasons search plan.reasons rs.evidence_store))
          "synthesize_pyramid",
         { store with
            runs := updateAssoc store.runs run_id
              ({ rs with
                 evidence_store := collectReasons search plan.reasons rs.evidence_store
                 plan := some { plan with reasons := plan.reasons.map completedReason } }) }) := by
  obtain ⟨rid0, plan0, es0, del0, met0⟩ := rs
  subst hplan
  have hget : get_run store run_id
      = some ⟨rid0, some plan, es0, del0, met0⟩ := by
    unfold get_run
    rw [hrid]
    exact h
  unfold run_plan_stage
  rw [hget]
  rfl

end Minto.Server

namespace Minto.Reasoning

theorem updateState_eq_updateAssoc (state : List (String × Plan)) (k : String)
    (p : Plan) : updateState state k p = updateAssoc state k p := rfl

end Minto.Reasoning

namespace Minto.Execution

open Minto.Reasoning

/-- The reported total of `run_plan_stage_async(·, "all")` on a found run. -/
theorem run_plan_stage_all_total (state : List (String × Plan)) (run_id : String)
    (plan : Plan) (h : state.lookup run_id = some plan) :
    (run_plan_stage state run_id "all").1.total?
      = some (totalEvidence (collectEvidence plan.evidence_tasks
          (plan.evidence_tasks.map (fun t =>
            search_evidence_domain_aware t.query t.search_type plan.domain 5)))) := by
  unfold run_plan_stage
  rw [h]
  rfl

/-- The state after `run_plan_stage_async(·, "all")` on a found run: the
freshly gathered dictionary REPLACES `evidence_collected`. -/
theorem run_plan_stage_all_state (state : List (String × Plan)) (run_id : String)
    (plan : Plan) (h : state.lookup run_id = some plan) :
    (run_plan_stage state run_id "all").2
      = updateState state run_id { plan with
          evidence_collected := collectEvidence plan.evidence_tasks
            (plan.evidence_tasks.map (fun t =>
              search_evidence_domain_aware t.query t.search_type plan.domain 5))
          status := "evidence_collected" } := by
  unfold run_plan_stage
  rw [h]
  rfl

end Minto.Execution

namespace Minto.C6

open Minto.Reasoning Minto.Fixtures

/-- C6 (amended): the server evidence stage appends — running it twice on
a freshly planned run makes every per-reason store entry the one-pass list
repeated, so the reported total doubles — while the reasoning-module
evidence stage replaces the evidence dictionary, so a second call reports
the same total as the first. -/
theorem evidence_stage_append_vs_replace
    (search : String → Nat → List Server.SearchResult)
    (store : Server.StateStore) (run_id : String)
    (rs : Server.RunState) (plan : Server.ReasoningPlan)
    (hrid : (run_id == "") = false)
    (h : store.runs.lookup run_id = some rs)
    (hplan : rs.plan = some plan)
    (hfresh : rs.evidence_store = [])
    (rstate : List (String × Plan)) (rid2 : String) (p2 : Plan)
    (h2 : rstate.lookup rid2 = some p2) :
    ((Server.run_plan_stage search store run_id "all").1.total?
        = some ((plan.reasons.map
            (fun r => (Server.reasonEvidence search r).length)).sum))
    ∧ ((Server.run_plan_stage search
          (Server.run_plan_stage search store run_id "all").2 run_id "all").1.total?
        = some (2 * (plan.reasons.map
            (fun r => (Server.reasonEvidence search r).length)).sum))
    ∧ (∀ k, lookupGroup (Server.evidenceStoreOf
          (Server.run_plan_stage search
            (Server.run_plan_stage search store run_id "all").2 run_id "all").2 run_id) k
        = lookupGroup (Server.evidenceStoreOf
            (Server.run_plan_stage search store run_id "all").2 run_id) k
          ++ lookupGroup (Server.evidenceStoreOf
            (Server.run_plan_stage search store run_id "all").2 run_id) k)
    ∧ ((Execution.run_plan_stage
          (Execution.run_plan_stage rstate rid2 "all").2 rid2 "all").1.total?
        = (Execution.run_plan_stage rstate rid2 "all").1.total?) := by
  obtain ⟨rid0, plan0, es0, del0, met0⟩ := rs
  subst hplan
  subst hfresh
  have hcall1 := Server.run_plan_stage_all_spec search store run_id
    ⟨rid0, some plan, [], del0, met0⟩ plan hrid h rfl
  have hlook1 : ((Server.run_plan_stage search store run_id "all").2).runs.lookup run_id
      = some ⟨rid0,
          some { plan with reasons := plan.reasons.map Server.completedReason },
          Server.collectReasons search plan.reasons [], del0, met0⟩ := by
    rw [hcall1]
    exact lookup_updateAssoc _ h
  have hcall2 := Server.run_plan_stage_all_spec search
    (Server.run_plan_stage search store run_id "all").2 run_id
    ⟨rid0, some { plan with reasons := plan.reasons.map Server.completedReason },
      Server.collectReasons search plan.reasons [], del0, met0⟩
    { plan with reasons := plan.reasons.map Server.completedReason } hrid hlook1 rfl
  have hE1 : totalEvidence (Server.collectReasons search plan.reasons
        ([] : List (String × List Server.EvidenceItem)))
      = (plan.reasons.map (fun r => (Server.reasonEvidence search r).length)).sum := by
    rw [Server.totalEvidence_collectReasons]
    simp [totalEvidence]
  refine ⟨?_, ?_, ?_, ?_⟩
  · rw [hcall1]
    show some (totalEvidence (Server.collectReasons search plan.reasons [])) = _
    rw [hE1]
  · rw [hcall2]
    show some (totalEvidence (Server.collectReasons search
      (plan.reasons.map Server.completedReason)
      (Server.collectReasons search plan.reasons []))) = _
    rw [Server.collectReasons_completed, Server.totalEvidence_collectReasons, hE1]
    congr 1
    omega
  · intro k
    have hes1 : Server.evidenceStoreOf
        (Server.run_plan_stage search store run_id "all").2 run_id
        = Server.collectReasons search plan.reasons [] := by
      unfold Server.evidenceStoreOf
      rw [hlook1]
    have hlook2 : ((Server.run_plan_stage search
          (Server.run_plan_stage search store run_id "all").2 run_id "all").2).runs.lookup run_id
        = some ⟨rid0,
            some { { plan with reasons := plan.reasons.map Server.completedReason } with
              reasons := (plan.reasons.map Server.completedReason).map Server.completedReason },
            Server.collectReasons search (plan.reasons.map Server.completedReason)
              (Server.collectReasons search plan.reasons []), del0, met0⟩ := by
      rw [hcall2]
      exact lookup_updateAssoc _ hlook1
    have hes2 : Server.evidenceStoreOf
        (Server.run_plan_stage search
          (Server.run_plan_stage search store run_id "all").2 run_id "all").2 run_id
        = Server.collectReasons search (plan.reasons.map Server.completedReason)
            (Server.collectReasons search plan.reasons []) := by
      unfold Server.evidenceStoreOf
      rw [hlook2]
    rw [hes1, hes2, Server.collectReasons_completed,
      Server.lookupGroup_collectReasons]
    have : lookupGroup (Server.collectReasons search plan.reasons
        ([] : List (String × List Server.EvidenceItem))) k
        = Server.addedFor search plan.reasons k := by
      rw [Server.lookupGroup_collectReasons]
      rfl
    rw [this]
  · have hs1 := Execution.run_plan_stage_all_state rstate rid2 p2 h2
    have hl : List.lookup rid2 (Execution.run_plan_stage rstate rid2 "all").2
        = some { p2 with
            evidence_collected := Execution.collectEvidence p2.evidence_tasks
              (p2.evidence_tasks.map (fun t =>
                Execution.search_evidence_domain_aware t.query t.search_type p2.domain 5))
            status := "evidence_collected" } := by
      rw [hs1, updateState_eq_updateAssoc]
      exact lookup_updateAssoc _ h2
    rw [Execution.run_plan_stage_all_total _ _ _ hl,
      Execution.run_plan_stage_all_total _ _ _ h2]

end Minto.C6

namespace Minto.C6

/-- C6 counterexample: on the reasoning-module evidence stage
(`run_plan_stage_async`), a second call for the same run and stage leaves
the reported total at 1 — the per-reason list is replaced, not appended,
so the total is not doubled. -/
theorem evidence_stage_append_counterexample :
    ((Execution.run_plan_stage Fixtures.smallState "r2" "all").1.total? = some 1)
    ∧ ((Execution.run_plan_stage
        (Execution.run_plan_stage Fixtures.smallState "r2" "all").2 "r2" "all").1.total? = some 1)
    ∧ ¬((Execution.run_plan_stage
        (Execution.run_plan_stage Fixtures.smallState "r2" "all").2 "r2" "all").1.total? = some 2) := by
  refine ⟨by decide, by decide, by decide⟩

/-- Witness for `evidence_stage_append_vs_replace` at the concrete server
store (two tavily tasks per reason, one result per query: one pass yields
8 items, the second call doubles it). -/
theorem evidence_stage_append_vs_replace_witness :
    ((("r1" : String) == "") = false
      ∧ Fixtures.serverStore.runs.lookup "r1" = some Fixtures.serverRun
      ∧ Fixtures.serverRun.plan = some Fixtures.serverPlan
      ∧ Fixtures.serverRun.evidence_store = []
      ∧ List.lookup "r2" Fixtures.smallState = some Fixtures.smallPlan)
    ∧ ((Server.run_plan_stage Fixtures.oneResult
          (Server.run_plan_stage Fixtures.oneResult Fixtures.serverStore "r1" "all").2
          "r1" "all").1.total?
        = some (2 * (Fixtures.serverPlan.reasons.map
            (fun r => (Server.reasonEvidence Fixtures.oneResult r).length)).sum)) :=
  ⟨⟨rfl, rfl, rfl, rfl, rfl⟩,
   (evidence_stage_append_vs_replace Fixtures.oneResult Fixtures.serverStore "r1"
      Fixtures.serverRun Fixtures.serverPlan rfl rfl rfl rfl
      Fixtures.smallState "r2" Fixtures.smallPlan rfl).2.1⟩

end Minto.C6

namespace Minto

theorem max_zero_le_one {x : ℚ} (h : x ≤ 1) : max x 0 ≤ 1 := max_le h zero_le_one

theorem one_sub_coef_le_one {a b : ℚ} {m n : Nat} (ha : 0 ≤ a) (hb : 0 ≤ b) :
    1 - a * (m : ℚ) - b * (n : ℚ) ≤ 1 := by
  have h1 : 0 ≤ a * (m : ℚ) := mul_nonneg ha (Nat.cast_nonneg m)
  have h2 : 0 ≤ b * (n : ℚ) := mul_nonneg hb (Nat.cast_nonneg n)
  linarith

end Minto

namespace Minto.Critique

open Minto.Reasoning

/-! ### Per-aspect score bounds (`src/reasoning/critique.py`) -/

theorem critique_scqa_bounds (plan : Plan) :
    0 ≤ (critique_scqa plan).score ∧ (critique_scqa plan).score ≤ 1 := by
  unfold critique_scqa
  exact ⟨le_max_right _ _,
    max_zero_le_one (one_sub_coef_le_one (by norm_num) (by norm_num))⟩

theorem critique_governing_thought_bounds (plan : Plan) :
    0 ≤ (critique_governing_thought plan).score
      ∧ (critique_governing_thought plan).score ≤ 1 := by
  unfold critique_governing_thought
  refine ⟨le_max_right _ _, max_zero_le_one ?_⟩
  have hp : (0 : ℚ) ≤ (if plan.reasons.isEmpty then (0.5 : ℚ) else 0) := by
    split <;> norm_num
  have hb : (if plan.governing_thought == "" then (0 : ℚ)
      else if plan.governing_thought.length < 30 then 1 - 0.3 else 1) ≤ 1 := by
    split
    · norm_num
    · split <;> norm_num
  linarith

theorem critique_mece_bounds (plan : Plan) :
    0 ≤ (critique_mece plan).score ∧ (critique_mece plan).score ≤ 1 := by
  have hs : (critique_mece plan).score
      = if (MeceValidator.validate_mece_structure plan.reasons plan.brief
          plan.domain).is_mece then (1 : ℚ) else 0.5 := rfl
  rw [hs]
  constructor <;> split <;> norm_num

theorem critique_vertical_flow_bounds (plan : Plan) :
    0 ≤ (critique_vertical_flow plan).score
      ∧ (critique_vertical_flow plan).score ≤ 1 := by
  unfold critique_vertical_flow
  refine ⟨le_max_right _ _, max_zero_le_one ?_⟩
  have h1 : (0 : ℚ) ≤ (if plan.scqa.question != "" && plan.governing_thought != ""
      then (0 : ℚ) else 0.3) := by
    split <;> norm_num
  have h2 : (0 : ℚ) ≤ (if plan.governing_thought != "" && !plan.reasons.isEmpty
      then (0 : ℚ) else 0.3) := by
    split <;> norm_num
  have h3 : (0 : ℚ) ≤
      (if !plan.reasons.isEmpty && !plan.evidence_collected.isEmpty then (0 : ℚ)
        else if !plan.reasons.isEmpty && plan.evidence_collected.isEmpty then 0.2
        else 0) := by
    split
    · norm_num
    · split <;> norm_num
  linarith

theorem critique_horizontal_logic_bounds (plan : Plan) :
    0 ≤ (critique_horizontal_logic plan).score
      ∧ (critique_horizontal_logic plan).score ≤ 1 := by
  unfold critique_horizontal_logic
  split
  · exact ⟨by norm_num, by norm_num⟩
  · exact ⟨by norm_num, by norm_num⟩

theorem critique_logical_ordering_bounds (plan : Plan) :
    0 ≤ (critique_logical_ordering plan).score
      ∧ (critique_logical_ordering plan).score ≤ 1 := by
  unfold critique_logical_ordering
  refine ⟨le_max_right _ _, max_zero_le_one ?_⟩
  split <;> norm_num

theorem critique_evidence_bounds (plan : Plan) :
    0 ≤ (critique_evidence plan).score ∧ (critique_evidence plan).score ≤ 1 := by
  unfold critique_evidence
  exact ⟨le_max_left _ _, max_le zero_le_one (min_le_right _ _)⟩

theorem critique_cognitive_load_bounds (plan : Plan) :
    0 ≤ (critique_cognitive_load plan).score
      ∧ (critique_cognitive_load plan).score ≤ 1 := by
  have hs : (critique_cognitive_load plan).score
      = if (decide (1 ≤ plan.reasons.length)
            && decide (plan.reasons.length ≤ 4)) = true
        then (1 : ℚ) else 0.5 := rfl
  constructor <;> rw [hs] <;> split <;> norm_num

/-- C7: for every run that is critiqued, the overall score is exactly the
arithmetic mean of the 8 aspect scores, every aspect score lies in [0,1],
and the pass flag is true iff the mean is at least 0.75 and every aspect
score is at least the 0.6 floor. -/
theorem critique_mean_bounds_and_gate (state : List (String × Plan))
    (run_id : String) (plan : Plan) (h : state.lookup run_id = some plan) :
    (critique_pyramid_quality state run_id).1
        = CritiqueResult.ok (critique_report run_id plan)
    ∧ (critique_report run_id plan).overall_score
        = ((critique_list plan).map (fun c => c.score)).sum
          / (((critique_list plan).map (fun c => c.score)).length : ℚ)
    ∧ (∀ c ∈ (critique_report run_id plan).critiques, 0 ≤ c.score ∧ c.score ≤ 1)
    ∧ ((critique_report run_id plan).passed = true ↔
        ((0.75 : ℚ) ≤ (critique_report run_id plan).overall_score
          ∧ ∀ c ∈ (critique_report run_id plan).critiques, (0.6 : ℚ) ≤ c.score)) := by
  refine ⟨?_, rfl, ?_, ?_⟩
  · unfold critique_pyramid_quality
    rw [h]
  · intro c hc
    have hmem : c ∈ critique_list plan := hc
    simp only [critique_list, List.mem_cons, List.not_mem_nil, or_false] at hmem
    rcases hmem with rfl | rfl | rfl | rfl | rfl | rfl | rfl | rfl
    · exact critique_scqa_bounds plan
    · exact critique_governing_thought_bounds plan
    · exact critique_mece_bounds plan
    · exact critique_vertical_flow_bounds plan
    · exact critique_horizontal_logic_bounds plan
    · exact critique_logical_ordering_bounds plan
    · exact critique_evidence_bounds plan
    · exact critique_cognitive_load_bounds plan
  · constructor
    · intro hp
      have hp' : (decide ((0.75 : ℚ) ≤ (critique_report run_id plan).overall_score)
          && (critique_list plan).all (fun c => decide ((0.6 : ℚ) ≤ c.score)))
          = true := hp
      rw [Bool.and_eq_true] at hp'
      refine ⟨of_decide_eq_true hp'.1, ?_⟩
      intro c hc
      exact of_decide_eq_true (List.all_eq_true.mp hp'.2 c hc)
    · rintro ⟨h1, h2⟩
      show (decide ((0.75 : ℚ) ≤ (critique_report run_id plan).overall_score)
          && (critique_list plan).all (fun c => decide ((0.6 : ℚ) ≤ c.score)))
          = true
      rw [Bool.and_eq_true]
      exact ⟨decide_eq_true h1,
        List.all_eq_true.mpr (fun c hc => decide_eq_true (h2 c hc))⟩

end Minto.Critique

namespace Minto.Critique

open Minto.Reasoning

/-- Witness for `critique_mean_bounds_and_gate` at the concrete one-reason
run. -/
theorem critique_mean_bounds_and_gate_witness :
    (List.lookup "r2" Fixtures.smallState = some Fixtures.smallPlan)
    ∧ ((critique_pyramid_quality Fixtures.smallState "r2").1
        = CritiqueResult.ok (critique_report "r2" Fixtures.smallPlan)
      ∧ (critique_report "r2" Fixtures.smallPlan).overall_score
          = ((critique_list Fixtures.smallPlan).map (fun c => c.score)).sum
            / (((critique_list Fixtures.smallPlan).map (fun c => c.score)).length : ℚ)
      ∧ (∀ c ∈ (critique_report "r2" Fixtures.smallPlan).critiques,
          0 ≤ c.score ∧ c.score ≤ 1)
      ∧ ((critique_report "r2" Fixtures.smallPlan).passed = true ↔
          ((0.75 : ℚ) ≤ (critique_report "r2" Fixtures.smallPlan).overall_score
            ∧ ∀ c ∈ (critique_report "r2" Fixtures.smallPlan).critiques,
              (0.6 : ℚ) ≤ c.score))) :=
  ⟨rfl, critique_mean_bounds_and_gate Fixtures.smallState "r2" Fixtures.smallPlan rfl⟩

end Minto.Critique

namespace Minto.C8

open Minto.Reasoning

/-- C8 (amended): every embedded core operation returns a structured error
payload — never an exception — when the run identifier is unknown; but the
unknown-run case is NOT the only error payload: the server
`synthesize_pyramid` also returns an "Insufficient evidence" (and a
"MECE validation failed") error payload on known, planned runs. -/
theorem error_payload_taxonomy :
    (∀ (state : List (String × Plan)) (rid stage : String),
      state.lookup rid = none →
      (Execution.run_plan_stage state rid stage).1
        = Execution.ExecResult.error "Run not found")
    ∧ (∀ (state : List (String × Plan)) (rid fmt : String),
      state.lookup rid = none →
      (Synthesis.synthesize_deliverable state rid fmt).1
        = Synthesis.SynthResult.error "Run not found")
    ∧ (∀ (state : List (String × Plan)) (rid : String),
      state.lookup rid = none →
      (Critique.critique_pyramid_quality state rid).1
        = Critique.CritiqueResult.error "Run not found")
    ∧ (∀ (search : String → Nat → List Server.SearchResult)
        (store : Server.StateStore) (rid stage : String),
      (rid == "") = false → store.runs.lookup rid = none →
      (Server.run_plan_stage search store rid stage).1
        = Server.StageResult.error "Run not found or not planned")
    ∧ (∀ (store : Server.StateStore) (rid : String),
      (rid == "") = false → store.runs.lookup rid = none →
      (Server.synthesize_pyramid store rid).1.error?
        = some "Run not found or not planned")
    ∧ (∀ (store : Server.StateStore) (rid : String) (rs : Server.RunState)
        (plan : Server.ReasoningPlan),
      (rid == "") = false → store.runs.lookup rid = some rs →
      rs.plan = some plan →
      (Server.calculate_mece_score plan.reasons).valid = true →
      totalEvidence rs.evidence_store < plan.reasons.length * 2 →
      (Server.synthesize_pyramid store rid).1.error?
        = some "Insufficient evidence") := by
  refine ⟨?_, ?_, ?_, ?_, ?_, ?_⟩
  · intro state rid stage hnone
    unfold Execution.run_plan_stage
    rw [hnone]
  · intro state rid fmt hnone
    unfold Synthesis.synthesize_deliverable
    rw [hnone]
  · intro state rid hnone
    unfold Critique.critique_pyramid_quality
    rw [hnone]
  · intro search store rid stage hrid hnone
    have hget : Server.get_run store rid = none := by
      unfold Server.get_run
      rw [hrid]
      exact hnone
    unfold Server.run_plan_stage
    rw [hget]
  · intro store rid hrid hnone
    have hget : Server.get_run store rid = none := by
      unfold Server.get_run
      rw [hrid]
      exact hnone
    unfold Server.synthesize_pyramid
    rw [hget]
    rfl
  · intro store rid rs plan hrid h hplan hvalid hlt
    obtain ⟨rid0, plan0, es0, del0, met0⟩ := rs
    have hplan' : plan0 = some plan := hplan
    subst hplan'
    have hget : Server.get_run store rid
        = some ⟨rid0, some plan, es0, del0, met0⟩ := by
      unfold Server.get_run
      rw [hrid]
      exact h
    have hlt' : totalEvidence es0 < plan.reasons.length * 2 := hlt
    have hbody : Server.synthesize_pyramid store rid
        = Server.synthesize_gates store rid ⟨rid0, some plan, es0, del0, met0⟩ plan := by
      unfold Server.synthesize_pyramid
      rw [hget]
    rw [hbody]
    simp only [Server.synthesize_gates, hvalid, Bool.not_true, Bool.false_eq_true,
      if_false]
    rw [if_pos hlt']
    rfl

end Minto.C8

namespace Minto.C8

/-- C8 counterexample: on a known, planned run with an empty evidence
store, the server `synthesize_pyramid` returns the structured
"Insufficient evidence" error payload — an error payload that is not the
unknown-run-identifier one. -/
theorem synthesize_extra_error_counterexample :
    (Fixtures.serverStore.runs.lookup "r1" = some Fixtures.serverRun)
    ∧ (Server.synthesize_pyramid Fixtures.serverStore "r1").1.error?
        = some "Insufficient evidence"
    ∧ ¬((Server.synthesize_pyramid Fixtures.serverStore "r1").1.error?
        = some "Run not found or not planned") := by
  have hvalid : (Server.calculate_mece_score Fixtures.serverPlan.reasons).valid
      = true := by
    have hov : Server.analysisOverlaps Fixtures.serverPlan.reasons = [] := by decide
    have hlen : Fixtures.serverPlan.reasons.length = 4 := rfl
    simp only [Server.calculate_mece_score, hov, hlen]
    norm_num
  have hget : Server.get_run Fixtures.serverStore "r1" = some Fixtures.serverRun := rfl
  have hbody : Server.synthesize_pyramid Fixtures.serverStore "r1"
      = Server.synthesize_gates Fixtures.serverStore "r1" Fixtures.serverRun
          Fixtures.serverPlan := by
    unfold Server.synthesize_pyramid
    rw [hget]
    rfl
  have herr : (Server.synthesize_pyramid Fixtures.serverStore "r1").1.error?
      = some "Insufficient evidence" := by
    rw [hbody]
    simp only [Server.synthesize_gates, hvalid, Bool.not_true, Bool.false_eq_true,
      if_false]
    rw [if_pos (by decide : totalEvidence Fixtures.serverRun.evidence_store
      < Fixtures.serverPlan.reasons.length * 2)]
    rfl
  exact ⟨rfl, herr, by rw [herr]; decide⟩

/-- Witness for `error_payload_taxonomy`: the unknown-run error payload of
the evidence stage on the empty state. -/
theorem error_payload_taxonomy_witness :
    (List.lookup "missing" ([] : List (String × Reasoning.Plan)) = none)
    ∧ (Execution.run_plan_stage ([] : List (String × Reasoning.Plan)) "missing" "all").1
        = Execution.ExecResult.error "Run not found" :=
  ⟨rfl, error_payload_taxonomy.1 [] "missing" "all" rfl⟩

end Minto.C8

namespace Minto.C9

open Minto.Reasoning

/-- C9 (amended): each stage operation on a found run sets the record's
status to its own stage value unconditionally — there is no forward-only
guard, which is what allows the status to move backward. -/
theorem stage_status_unconditional (state : List (String × Plan))
    (run_id stage fmt : String) (plan : Plan)
    (h : state.lookup run_id = some plan) :
    (∃ p, List.lookup run_id (Execution.run_plan_stage state run_id stage).2 = some p
      ∧ p.status = "evidence_collected")
    ∧ (∃ p, List.lookup run_id
        (Synthesis.synthesize_deliverable state run_id fmt).2 = some p
      ∧ p.status = "synthesized")
    ∧ (∃ p, List.lookup run_id
        (Critique.critique_pyramid_quality state run_id).2 = some p
      ∧ p.status = "critiqued") := by
  refine ⟨?_, ?_, ?_⟩
  · obtain ⟨p2, h2a, h2b⟩ : ∃ p2, (Execution.run_plan_stage state run_id stage).2
        = updateState state run_id p2 ∧ p2.status = "evidence_collected" := by
      unfold Execution.run_plan_stage
      rw [h]
      exact ⟨_, rfl, rfl⟩
    exact ⟨p2, by rw [h2a, updateState_eq_updateAssoc]; exact lookup_updateAssoc _ h,
      h2b⟩
  · obtain ⟨p2, h2a, h2b⟩ : ∃ p2, (Synthesis.synthesize_deliverable state run_id fmt).2
        = updateState state run_id p2 ∧ p2.status = "synthesized" := by
      unfold Synthesis.synthesize_deliverable
      rw [h]
      exact ⟨_, rfl, rfl⟩
    exact ⟨p2, by rw [h2a, updateState_eq_updateAssoc]; exact lookup_updateAssoc _ h,
      h2b⟩
  · obtain ⟨p2, h2a, h2b⟩ : ∃ p2, (Critique.critique_pyramid_quality state run_id).2
        = updateState state run_id p2 ∧ p2.status = "critiqued" := by
      unfold Critique.critique_pyramid_quality
      rw [h]
      exact ⟨_, rfl, rfl⟩
    exact ⟨p2, by rw [h2a, updateState_eq_updateAssoc]; exact lookup_updateAssoc _ h,
      h2b⟩

/-- C9 counterexample: from a planned run, synthesizing and then running
the evidence stage moves the status from `synthesized` back to
`evidence_collected` — an earlier value in the progression — so the
forward-only invariant does not hold. -/
theorem status_moves_backward_counterexample :
    ∃ p1 p2,
      List.lookup "r2"
        (Synthesis.synthesize_deliverable Fixtures.smallState "r2" "markdown").2
        = some p1
      ∧ p1.status = "synthesized"
      ∧ List.lookup "r2" (Execution.run_plan_stage
          (Synthesis.synthesize_deliverable Fixtures.smallState "r2" "markdown").2
          "r2" "all").2 = some p2
      ∧ p2.status = "evidence_collected"
      ∧ statusRank p2.status < statusRank p1.status := by
  refine ⟨_, _, rfl, rfl, rfl, rfl, by decide⟩

/-- Witness for `stage_status_unconditional` at the concrete one-reason
run. -/
theorem stage_status_unconditional_witness :
    (List.lookup "r2" Fixtures.smallState = some Fixtures.smallPlan)
    ∧ ((∃ p, List.lookup "r2"
          (Execution.run_plan_stage Fixtures.smallState "r2" "all").2 = some p
        ∧ p.status = "evidence_collected")
      ∧ (∃ p, List.lookup "r2"
          (Synthesis.synthesize_deliverable Fixtures.smallState "r2" "markdown").2
          = some p ∧ p.status = "synthesized")
      ∧ (∃ p, List.lookup "r2"
          (Critique.critique_pyramid_quality Fixtures.smallState "r2").2 = some p
        ∧ p.status = "critiqued")) :=
  ⟨rfl, stage_status_unconditional Fixtures.smallState "r2" "all" "markdown"
    Fixtures.smallPlan rfl⟩

end Minto.C9

namespace Minto.C10

open Minto.Reasoning

/-- C10: each stage operation invoked with a run identifier not present in
its state store returns the structured error payload and returns the state
store completely unchanged. -/
theorem unknown_run_leaves_state_unchanged (state : List (String × Plan))
    (store : Server.StateStore) (search : String → Nat → List Server.SearchResult)
    (rid stage fmt : String)
    (hrid : (rid == "") = false)
    (hstate : state.lookup rid = none)
    (hstore : store.runs.lookup rid = none) :
    Execution.run_plan_stage state rid stage
        = (Execution.ExecResult.error "Run not found", state)
    ∧ Synthesis.synthesize_deliverable state rid fmt
        = (Synthesis.SynthResult.error "Run not found", state)
    ∧ Critique.critique_pyramid_quality state rid
        = (Critique.CritiqueResult.error "Run not found", state)
    ∧ Server.run_plan_stage search store rid stage
        = (Server.StageResult.error "Run not found or not planned", store) := by
  have hget : Server.get_run store rid = none := by
    unfold Server.get_run
    rw [hrid]
    exact hstore
  refine ⟨?_, ?_, ?_, ?_⟩
  · unfold Execution.run_plan_stage
    rw [hstate]
  · unfold Synthesis.synthesize_deliverable
    rw [hstate]
  · unfold Critique.critique_pyramid_quality
    rw [hstate]
  · unfold Server.run_plan_stage
    rw [hget]

/-- Witness for `unknown_run_leaves_state_unchanged` on empty stores. -/
theorem unknown_run_leaves_state_unchanged_witness :
    ((("missing" : String) == "") = false
      ∧ List.lookup "missing" ([] : List (String × Plan)) = none
      ∧ List.lookup "missing" (Server.StateStore.mk [] none).runs = none)
    ∧ Execution.run_plan_stage ([] : List (String × Plan)) "missing" "all"
        = (Execution.ExecResult.error "Run not found", []) :=
  ⟨⟨rfl, rfl, rfl⟩,
   (unknown_run_leaves_state_unchanged [] ⟨[], none⟩ (fun _ _ => []) "missing"
      "all" "markdown" rfl rfl rfl).1⟩

end Minto.C10
